import Mathlib

/-!
# DoIP / UDS diagnostic server: the UDS dispatcher

A shallow embedding of `src/uds_server.cpp` (class `UDSServer`).

* Bytes (`uint8_t`) are natural numbers; a request or response is a `List Nat`.
  Theorems that depend on the entries being bytes say so (`IsBytes`).
* `uint32_t` values are natural numbers, reduced `% 2 ^ 32` where the source
  computes with them.
* The object's member variables are the fields of the structure `UDSServer`;
  a member function that mutates the object takes the state and returns the
  new state next to its return value.
* `std::chrono::steady_clock::now()` is an input: every function that reads
  the clock takes the reading as an argument (an integer number of clock
  ticks, `steadyClockTicksPerSecond` ticks to the second).
* Output to `std::cout` is not modelled.
-/

namespace UDS

/-- The enumeration `UDSServer::DiagnosticSession` (uds_server.h:15). -/
inductive DiagnosticSession where
  | DEFAULT
  | PROGRAMMING
  | EXTENDED
  | SAFETY_SYSTEM
  deriving DecidableEq, Repr

/-- The enumeration `UDSServer::ResetType` (uds_server.h:22). -/
inductive ResetType where
  | HARD_RESET
  | KEY_OFF_ON_RESET
  | SOFT_RESET
  | ENABLE_RAPID_POWER_SHUTDOWN
  | DISABLE_RAPID_POWER_SHUTDOWN
  deriving DecidableEq, Repr

/-- The struct `UDSServer::MemoryAddress` (uds_server.h:36): two `uint32_t`. -/
structure MemoryAddress where
  address : Nat
  size : Nat
  deriving DecidableEq, Repr

/-- The data members of `UDSServer` (uds_server.h:77-87).  The handler map
`services` is filled once by the constructor and never changes afterwards; it
is the function `services` below.  `lastActivityTime` is a reading of the
steady clock in ticks, `sessionTimeout` a number of seconds. -/
structure UDSServer where
  testerPresent : Bool
  currentSession : DiagnosticSession
  lastActivityTime : Int
  sessionTimeout : Int
  currentDownloadMemoryAddress : Option MemoryAddress
  currentBlockSequenceCounter : Nat
  downloadBuffer : List Nat
  transferInProgress : Bool
  eraseInProgress : Bool
  eraseAddress : MemoryAddress
  deriving DecidableEq, Repr

/-- Every entry of the list is a byte. -/
def IsBytes (l : List Nat) : Prop := ∀ b ∈ l, b < 256

instance (l : List Nat) : Decidable (IsBytes l) := by
  unfold IsBytes; infer_instance

/-- Ticks of `std::chrono::steady_clock` per second (its period is one
nanosecond in libstdc++ and libc++). -/
def steadyClockTicksPerSecond : Int := 1000000000

/-- The values of `enum class RoutineControlType` (uds_server.h:30).  The
source obtains a control type by `static_cast` from a request byte, so any
byte value can occur; the control type is kept as its numeric value. -/
def RoutineControlType.START : Nat := 0x01

/-- See `RoutineControlType.START`. -/
def RoutineControlType.STOP : Nat := 0x02

/-- See `RoutineControlType.START`. -/
def RoutineControlType.REQUEST_RESULTS : Nat := 0x03

/-- The state built by the constructor `UDSServer::UDSServer` (uds_server.cpp:6-44).
`now` is the clock reading taken at line 43.  The member `eraseAddress` has no
initialiser, so its initial value `ea` is arbitrary; the optional download
context and the download buffer are default-constructed (empty). -/
def UDSServer.init (now : Int) (ea : MemoryAddress) : UDSServer :=
  { testerPresent := false
    currentSession := DiagnosticSession.DEFAULT
    lastActivityTime := now
    sessionTimeout := 5
    currentDownloadMemoryAddress := none
    currentBlockSequenceCounter := 0
    downloadBuffer := []
    transferInProgress := false
    eraseInProgress := false
    eraseAddress := ea }

/-- `UDSServer::updateSessionTimeout` (uds_server.cpp:474-476). -/
def updateSessionTimeout (s : UDSServer) (now : Int) : UDSServer :=
  { s with lastActivityTime := now }

/-- `UDSServer::checkSessionTimeout` (uds_server.cpp:478-486).
`duration_cast<seconds>` truncates the tick difference toward zero. -/
def checkSessionTimeout (s : UDSServer) (currentTime : Int) : UDSServer :=
  let elapsedTime := Int.tdiv (currentTime - s.lastActivityTime) steadyClockTicksPerSecond
  if elapsedTime > s.sessionTimeout then
    { s with currentSession := DiagnosticSession.DEFAULT, sessionTimeout := 5 }
  else s

/-- `UDSServer::performReset` (uds_server.cpp:488-516): apart from console
output every reset type does the same. -/
def performReset (s : UDSServer) (_resetType : ResetType) : UDSServer :=
  { s with currentSession := DiagnosticSession.DEFAULT, sessionTimeout := 5 }

/-- The `uint32_t` that `std::memcpy(&x, p, 4)` leaves in `x` on a
little-endian host, for the four bytes at `p`. -/
def memcpy32 (b0 b1 b2 b3 : Nat) : Nat :=
  b0 + b1 * 2 ^ 8 + b2 * 2 ^ 16 + b3 * 2 ^ 24

/-- The builtin `__builtin_bswap32`: reverse the four bytes of a 32-bit value. -/
def bswap32 (x : Nat) : Nat :=
  (x % 256) * 2 ^ 24 + (x / 2 ^ 8 % 256) * 2 ^ 16 + (x / 2 ^ 16 % 256) * 2 ^ 8 + x / 2 ^ 24 % 256

/-- `UDSServer::parseMemoryAddress` (uds_server.cpp:518-533), on a
little-endian host. -/
def parseMemoryAddress (data : List Nat) : Option MemoryAddress :=
  if data.length < 8 then none
  else
    let address := memcpy32 (data.getD 0 0) (data.getD 1 0) (data.getD 2 0) (data.getD 3 0)
    let size := memcpy32 (data.getD 4 0) (data.getD 5 0) (data.getD 6 0) (data.getD 7 0)
    some { address := bswap32 address, size := bswap32 size }

/-- The const overload `UDSServer::checkMemoryRange(uint32_t, uint32_t) const`
(uds_server.cpp:596-603).  The sum `startAddress + size` is a `uint32_t` sum. -/
def checkMemoryRange (startAddress size : Nat) : Bool :=
  let ECU_MEMORY_START := 0x00000000
  let ECU_MEMORY_END := 0x00100000
  decide (startAddress ≥ ECU_MEMORY_START) && decide ((startAddress + size) % 2 ^ 32 ≤ ECU_MEMORY_END)

/-- The overload `UDSServer::checkMemoryRange(uint32_t, uint32_t, uint8_t&)`
(uds_server.cpp:535-557); the second component is the value left in
`errorCode` when the function writes to it. -/
def checkMemoryRangeWithErrorCode (s : UDSServer) (startAddress size : Nat) : Bool × Option Nat :=
  let ECU_MEMORY_START := 0x00000000
  let ECU_MEMORY_END := 0x00100000
  if startAddress < ECU_MEMORY_START ∨ (startAddress + size) % 2 ^ 32 > ECU_MEMORY_END then
    (false, some 0x31)
  else if s.currentSession ≠ DiagnosticSession.EXTENDED ∧
      s.currentSession ≠ DiagnosticSession.PROGRAMMING then
    (false, some 0x7E)
  else (true, none)

/-- The non-const overload `UDSServer::calculateChecksum` (uds_server.cpp:559-564):
four zero bytes.  This is the overload that a call from a non-const member
function selects. -/
def calculateChecksum (_startAddress _size : Nat) : List Nat :=
  List.replicate 4 0

/-- One iteration of the loop body of the const checksum overload
(uds_server.cpp:612-615). -/
def crcStep (crc : Nat) : Nat :=
  if crc &&& 1 ≠ 0 then (crc >>> 1) ^^^ 0xEDB88320 else crc >>> 1

/-- The const overload `UDSServer::calculateChecksum(...) const`
(uds_server.cpp:605-625). -/
def calculateChecksumConst (startAddress size : Nat) : List Nat :=
  let crc := Nat.iterate crcStep 32 (startAddress ^^^ size)
  [(crc >>> 24) &&& 0xFF, (crc >>> 16) &&& 0xFF, (crc >>> 8) &&& 0xFF, crc &&& 0xFF]

/-- `UDSServer::checkVoltage` (uds_server.cpp:566). -/
def checkVoltage (_s : UDSServer) : Bool := true

/-- `UDSServer::checkTemperature` (uds_server.cpp:571). -/
def checkTemperature (_s : UDSServer) : Bool := true

/-- `UDSServer::checkSecurityAccess` (uds_server.cpp:576). -/
def checkSecurityAccess (_s : UDSServer) : Bool := true

/-- `UDSServer::checkSoftwareVersionCompatibility` (uds_server.cpp:581). -/
def checkSoftwareVersionCompatibility (_s : UDSServer) : Bool := true

/-- `UDSServer::checkHardwareVersionCompatibility` (uds_server.cpp:586). -/
def checkHardwareVersionCompatibility (_s : UDSServer) : Bool := true

/-- `UDSServer::checkMemoryAvailability` (uds_server.cpp:591). -/
def checkMemoryAvailability (_s : UDSServer) : Bool := true

/-- `UDSServer::handleTesterPresentRequest` (uds_server.cpp:67-81). -/
def handleTesterPresentRequest (s : UDSServer) (request : List Nat) : List Nat × UDSServer :=
  if request.length < 2 then ([0x7F, 0x3E, 0x13], s)
  else if request.getD 1 0 = 0x00 then ([0x7E, 0x00], { s with testerPresent := true })
  else if request.getD 1 0 = 0x01 then ([0x7E, 0x00], { s with testerPresent := false })
  else ([0x7F, 0x3E, 0x31], s)

/-- `UDSServer::handleDiagnosticSessionControlRequest` (uds_server.cpp:83-119). -/
def handleDiagnosticSessionControlRequest (s : UDSServer) (request : List Nat) :
    List Nat × UDSServer :=
  if request.length < 2 then ([0x7F, 0x10, 0x13], s)
  else
    let requestedSession := request.getD 1 0
    let response := [0x50, requestedSession]
    if requestedSession = 0x01 then
      (response ++ [0x00, 0x32, 0x01, 0xF4],
        { s with currentSession := DiagnosticSession.DEFAULT, sessionTimeout := 5 })
    else if requestedSession = 0x02 then
      (response ++ [0x00, 0x32, 0x01, 0xF4],
        { s with currentSession := DiagnosticSession.PROGRAMMING, sessionTimeout := 10 })
    else if requestedSession = 0x03 then
      (response ++ [0x00, 0x32, 0x01, 0xF4],
        { s with currentSession := DiagnosticSession.EXTENDED, sessionTimeout := 7 })
    else if requestedSession = 0x04 then
      (response ++ [0x00, 0x32, 0x01, 0xF4],
        { s with currentSession := DiagnosticSession.SAFETY_SYSTEM, sessionTimeout := 15 })
    else ([0x7F, 0x10, 0x12], s)

/-- `UDSServer::handleECUResetRequest` (uds_server.cpp:121-150). -/
def handleECUResetRequest (s : UDSServer) (request : List Nat) : List Nat × UDSServer :=
  if request.length < 2 then ([0x7F, 0x11, 0x13], s)
  else
    let resetType := request.getD 1 0
    let response := [0x51, resetType]
    if resetType = 0x01 then (response, performReset s ResetType.HARD_RESET)
    else if resetType = 0x02 then (response, performReset s ResetType.KEY_OFF_ON_RESET)
    else if resetType = 0x03 then (response, performReset s ResetType.SOFT_RESET)
    else if resetType = 0x04 then
      (response, performReset s ResetType.ENABLE_RAPID_POWER_SHUTDOWN)
    else if resetType = 0x05 then
      (response, performReset s ResetType.DISABLE_RAPID_POWER_SHUTDOWN)
    else ([0x7F, 0x11, 0x12], s)

/-- `UDSServer::handleRequestDownloadRequest` (uds_server.cpp:152-190). -/
def handleRequestDownloadRequest (s : UDSServer) (request : List Nat) : List Nat × UDSServer :=
  if request.length < 3 then ([0x7F, 0x34, 0x13], s)
  else
    match parseMemoryAddress (request.drop 3) with
    | none => ([0x7F, 0x34, 0x13], s)
    | some memoryAddress =>
      if s.currentSession ≠ DiagnosticSession.PROGRAMMING then ([0x7F, 0x34, 0x22], s)
      else
        ([0x74, 0x04, 0x00],
          { s with
            currentDownloadMemoryAddress := some memoryAddress
            currentBlockSequenceCounter := 0
            downloadBuffer := []
            transferInProgress := true })

/-- `std::vector<uint8_t>::resize(n)`: keep the first `n` elements, or pad
with zero bytes up to length `n`. -/
def vectorResize (v : List Nat) (n : Nat) : List Nat :=
  v.take n ++ List.replicate (n - v.length) 0

/-- `UDSServer::handleTransferDataRequest` (uds_server.cpp:192-237).  The
comparison at line 208 is between the received byte and the `uint32_t` value
`(currentBlockSequenceCounter + 1) % 256`. -/
def handleTransferDataRequest (s : UDSServer) (request : List Nat) : List Nat × UDSServer :=
  if request.length < 2 then ([0x7F, 0x36, 0x13], s)
  else
    match s.currentDownloadMemoryAddress with
    | none => ([0x7F, 0x36, 0x22], s)
    | some memoryAddress =>
      if ¬ s.transferInProgress then ([0x7F, 0x36, 0x22], s)
      else
        let blockSequenceCounter := request.getD 1 0
        if blockSequenceCounter ≠ (s.currentBlockSequenceCounter + 1) % 2 ^ 32 % 256 then
          ([0x7F, 0x36, 0x73], s)
        else
          let s1 := { s with currentBlockSequenceCounter := blockSequenceCounter }
          let data := request.drop 2
          let s2 := { s1 with downloadBuffer := s1.downloadBuffer ++ data }
          if s2.downloadBuffer.length ≥ memoryAddress.size then
            ([0x76, blockSequenceCounter],
              { s2 with
                downloadBuffer := vectorResize s2.downloadBuffer memoryAddress.size
                currentDownloadMemoryAddress := none
                currentBlockSequenceCounter := 0 })
          else ([0x76, blockSequenceCounter], s2)

/-- `UDSServer::handleRequestTransferExitRequest` (uds_server.cpp:239-262). -/
def handleRequestTransferExitRequest (s : UDSServer) (_request : List Nat) :
    List Nat × UDSServer :=
  if ¬ s.transferInProgress then ([0x7F, 0x37, 0x22], s)
  else
    ([0x77],
      { s with
        currentDownloadMemoryAddress := none
        currentBlockSequenceCounter := 0
        downloadBuffer := []
        transferInProgress := false })

/-- `UDSServer::handleEraseRoutine` (uds_server.cpp:296-347). -/
def handleEraseRoutine (s : UDSServer) (controlType : Nat) (data : List Nat) :
    List Nat × UDSServer :=
  if controlType = RoutineControlType.START then
    if data.length < 8 then ([0x7F, 0x31, 0x13], s)
    else
      match parseMemoryAddress data with
      | none => ([0x7F, 0x31, 0x13], s)
      | some eraseAddressOpt =>
        ([0x71, 0x01, 0xFF, 0x00], { s with eraseAddress := eraseAddressOpt, eraseInProgress := true })
  else if controlType = RoutineControlType.STOP then
    if ¬ s.eraseInProgress then ([0x7F, 0x31, 0x22], s)
    else ([0x71, 0x02, 0xFF, 0x00], { s with eraseInProgress := false })
  else if controlType = RoutineControlType.REQUEST_RESULTS then
    if ¬ s.eraseInProgress then ([0x71, 0x03, 0xFF, 0x00, 0x00], s)
    else ([0x71, 0x03, 0xFF, 0x00, 0x01], s)
  else ([0x7F, 0x31, 0x31], s)

/-- `UDSServer::handleCheckProgrammingPreConditionsRoutine` (uds_server.cpp:349-388). -/
def handleCheckProgrammingPreConditionsRoutine (s : UDSServer) (controlType : Nat)
    (_data : List Nat) : List Nat × UDSServer :=
  if controlType = RoutineControlType.START then
    let voltageOk := checkVoltage s
    let temperatureOk := checkTemperature s
    let securityOk := checkSecurityAccess s
    let result := ((0 ||| (if voltageOk then 0x01 else 0)) ||| (if temperatureOk then 0x02 else 0))
      ||| (if securityOk then 0x04 else 0)
    ([0x71, 0x01, 0xFF, 0x01, result], s)
  else if controlType = RoutineControlType.STOP then ([0x7F, 0x31, 0x22], s)
  else if controlType = RoutineControlType.REQUEST_RESULTS then ([0x7F, 0x31, 0x22], s)
  else ([0x7F, 0x31, 0x31], s)

/-- `UDSServer::handleCheckProgrammingDependenciesRoutine` (uds_server.cpp:390-429). -/
def handleCheckProgrammingDependenciesRoutine (s : UDSServer) (controlType : Nat)
    (_data : List Nat) : List Nat × UDSServer :=
  if controlType = RoutineControlType.START then
    let softwareVersionOk := checkSoftwareVersionCompatibility s
    let hardwareVersionOk := checkHardwareVersionCompatibility s
    let memoryAvailableOk := checkMemoryAvailability s
    let result :=
      ((0 ||| (if softwareVersionOk then 0x01 else 0)) ||| (if hardwareVersionOk then 0x02 else 0))
        ||| (if memoryAvailableOk then 0x04 else 0)
    ([0x71, 0x01, 0xFF, 0x02, result], s)
  else if controlType = RoutineControlType.STOP then ([0x7F, 0x31, 0x22], s)
  else if controlType = RoutineControlType.REQUEST_RESULTS then ([0x7F, 0x31, 0x22], s)
  else ([0x7F, 0x31, 0x31], s)

/-- The expression `(b0 << 24) | (b1 << 16) | (b2 << 8) | b3` converted to
`uint32_t` (uds_server.cpp:438-439). -/
def shiftOr32 (b0 b1 b2 b3 : Nat) : Nat :=
  ((b0 <<< 24) ||| (b1 <<< 16) ||| (b2 <<< 8) ||| b3) % 2 ^ 32

/-- `UDSServer::handleCheckMemoryRoutine` (uds_server.cpp:431-464).  The
member function is not const, so the call at line 445 selects the non-const
`calculateChecksum`; the two-argument call at line 441 can only be the const
`checkMemoryRange`. -/
def handleCheckMemoryRoutine (s : UDSServer) (controlType : Nat) (data : List Nat) :
    List Nat × UDSServer :=
  if controlType = RoutineControlType.START then
    if data.length < 8 then ([0x7F, 0x31, 0x13], s)
    else
      let startAddress :=
        shiftOr32 (data.getD 0 0) (data.getD 1 0) (data.getD 2 0) (data.getD 3 0)
      let size := shiftOr32 (data.getD 4 0) (data.getD 5 0) (data.getD 6 0) (data.getD 7 0)
      if ¬ checkMemoryRange startAddress size then ([0x7F, 0x31, 0x31], s)
      else
        let checksum := calculateChecksum startAddress size
        ([0x71, 0x01, 0xFF, 0x03] ++ checksum, s)
  else if controlType = RoutineControlType.STOP then ([0x7F, 0x31, 0x22], s)
  else if controlType = RoutineControlType.REQUEST_RESULTS then ([0x7F, 0x31, 0x22], s)
  else ([0x7F, 0x31, 0x31], s)

/-- `UDSServer::handleRoutineControlRequest` (uds_server.cpp:264-294).
`routineIdentifier` is a `uint16_t`. -/
def handleRoutineControlRequest (s : UDSServer) (request : List Nat) : List Nat × UDSServer :=
  if request.length < 4 then ([0x7F, 0x31, 0x13], s)
  else
    let controlType := request.getD 1 0
    let routineIdentifier := ((request.getD 2 0 <<< 8) ||| request.getD 3 0) % 2 ^ 16
    if s.currentSession ≠ DiagnosticSession.PROGRAMMING then ([0x7F, 0x31, 0x22], s)
    else if routineIdentifier = 0xFF00 then handleEraseRoutine s controlType (request.drop 4)
    else if routineIdentifier = 0xFF01 then
      handleCheckProgrammingPreConditionsRoutine s controlType (request.drop 4)
    else if routineIdentifier = 0xFF02 then
      handleCheckProgrammingDependenciesRoutine s controlType (request.drop 4)
    else if routineIdentifier = 0xFF03 then handleCheckMemoryRoutine s controlType (request.drop 4)
    else ([0x7F, 0x31, 0x31], s)

/-- The handler map `services` as the constructor leaves it
(uds_server.cpp:15-41): `services.find(serviceId)`. -/
def services (serviceId : Nat) : Option (UDSServer → List Nat → List Nat × UDSServer) :=
  if serviceId = 0x10 then some handleDiagnosticSessionControlRequest
  else if serviceId = 0x11 then some handleECUResetRequest
  else if serviceId = 0x3E then some handleTesterPresentRequest
  else if serviceId = 0x34 then some handleRequestDownloadRequest
  else if serviceId = 0x36 then some handleTransferDataRequest
  else if serviceId = 0x37 then some handleRequestTransferExitRequest
  else if serviceId = 0x31 then some handleRoutineControlRequest
  else none

/-- `UDSServer::handleRequest` (uds_server.cpp:50-65).  `tCheck` is the clock
reading taken inside `checkSessionTimeout`, `tUpdate` the one taken inside
`updateSessionTimeout`. -/
def handleRequest (s : UDSServer) (tCheck tUpdate : Int) (request : List Nat) :
    List Nat × UDSServer :=
  let s1 := checkSessionTimeout s tCheck
  let s2 := updateSessionTimeout s1 tUpdate
  match request with
  | [] => ([0x7F, 0x00, 0x11], s2)
  | serviceId :: _ =>
    match services serviceId with
    | some handler => handler s2 request
    | none => ([0x7F, serviceId, 0x11], s2)

/-- The dispatcher states that a `UDSServer` object can be in: the state the
constructor builds, and every state `handleRequest` leaves behind, for any
clock readings and any request. -/
inductive Reachable : UDSServer → Prop where
  | init (now : Int) (ea : MemoryAddress) : Reachable (UDSServer.init now ea)
  | step (s : UDSServer) (tCheck tUpdate : Int) (request : List Nat) :
      Reachable s → Reachable (handleRequest s tCheck tUpdate request).2


/-- The list is non-empty and its first entry is `a` or `b`. -/
def HeadIn (l : List Nat) (a b : Nat) : Prop := ∃ r0 rs, l = r0 :: rs ∧ (r0 = a ∨ r0 = b)

/-- The relation between the download fields that every reachable state
satisfies: a present download context implies a transfer in progress and a
buffer no longer than the declared size; no transfer in progress implies no
context, counter 0 and an empty buffer. -/
def DownloadInv (s : UDSServer) : Prop :=
  (∀ m, s.currentDownloadMemoryAddress = some m →
    s.transferInProgress = true ∧ s.downloadBuffer.length ≤ m.size) ∧
  (s.transferInProgress = false →
    s.currentDownloadMemoryAddress = none ∧ s.currentBlockSequenceCounter = 0 ∧
      s.downloadBuffer = [])

/-- Feed a sequence of requests to `handleRequest`, one call after the other.
Each entry carries the two clock readings of its call and the request; the
result pairs every request with its response and gives the final state. -/
def runRequests (s : UDSServer) :
    List (Int × Int × List Nat) → List (List Nat × List Nat) × UDSServer
  | [] => ([], s)
  | (tCheck, tUpdate, request) :: rest =>
    let r := handleRequest s tCheck tUpdate request
    let rs := runRequests r.2 rest
    ((request, r.1) :: rs.1, rs.2)

/-- The counter bytes (second request byte) of the requests of a trace that
were answered positively by TransferData, i.e. with first response byte 0x76,
in order. -/
def acceptedCounters (trace : List (List Nat × List Nat)) : List Nat :=
  trace.filterMap fun p => if p.2.head? = some 0x76 then some (p.1.getD 1 0) else none

end UDS

/-!
# The DoIP framing layer

A shallow embedding of `src/doip_server.cpp` (class `DoIPServer`).

* The socket members and the listener loop `run` are not modelled.  What
  `processDoIPMessage` passes to `send` is returned as the list of emitted
  frames, in order.
* `processDoIPMessage` receives a pointer and the number of bytes read.  The
  argument `data` is the content of the memory block the pointer refers to (in
  `run`, the receive buffer of `BUFFER_SIZE` bytes, whose first `length` bytes
  are the bytes just received); the received frame is `data.take length`.
  A read at an offset outside the block has no defined result in the source;
  the embedding returns `none` for a call that makes such a read.
-/

namespace DoIP

open UDS

/-- The macro `BUFFER_SIZE` (doip_server.cpp:9). -/
def BUFFER_SIZE : Nat := 1024 * 64

/-- The macro `VIN` (doip_server.cpp:10). -/
def VIN : List Nat := [0x31, 0x32, 0x33, 0x34, 0x35, 0x36]

/-- The data members of `DoIPServer` that `processDoIPMessage` uses
(doip_server.h:20-25): the routing flag, the VIN and the UDS dispatcher. -/
structure DoIPServer where
  routingActivated : Bool
  vin : List Nat
  udsServer : UDSServer
  deriving DecidableEq, Repr

/-- The state built by the constructor `DoIPServer::DoIPServer`
(doip_server.cpp:12-16); `now` and `ea` are passed on to the constructor of
the UDS dispatcher. -/
def DoIPServer.init (now : Int) (ea : MemoryAddress) : DoIPServer :=
  { routingActivated := false
    vin := VIN
    udsServer := UDSServer.init now ea }

/-- The bytes `first[0], ..., last[-1]` of the memory block `data`, as the
range constructor `std::vector<uint8_t>(data + first, data + last)` copies
them; `none` when the range is not inside the block. -/
def readRange (data : List Nat) (first last : Nat) : Option (List Nat) :=
  if first ≤ last ∧ last ≤ data.length then some ((data.drop first).take (last - first))
  else none

/-- The frame sent by `DoIPServer::sendNegativeResponse` (doip_server.cpp:185-194);
`payloadType` is a `uint16_t`, the two type bytes are `static_cast<uint8_t>`. -/
def sendNegativeResponse (payloadType responseCode : Nat) : List Nat :=
  [0x02, 0xFD, ((payloadType >>> 8) ||| 0x80) % 256, (payloadType &&& 0xFF) % 256,
    0x00, 0x00, 0x00, 0x01, responseCode]

/-- The frame sent by `DoIPServer::sendVehicleIdentificationResponse`
(doip_server.cpp:143-156): the twelve literal bytes, the VIN, seventeen zero
bytes. -/
def sendVehicleIdentificationResponse (srv : DoIPServer) : List Nat :=
  [0x02, 0xFD, 0x00, 0x04, 0x00, 0x00, 0x00, 0x21, 0x01, 0x00, 0xE0, 0x00] ++ srv.vin ++
    List.replicate 17 0x00

/-- `DoIPServer::handleRoutingActivationRequest` (doip_server.cpp:158-183):
the frame sent and the new state.  `payload` is the memory block from
`data + 8` on, `length` the `uint32_t` payload length of the header. -/
def handleRoutingActivationRequest (srv : DoIPServer) (payload : List Nat) (length : Nat) :
    Option (List Nat × DoIPServer) :=
  if length < 7 then some (sendNegativeResponse 0x0005 0x04, srv)
  else do
    let p0 ← payload[0]?
    let p1 ← payload[1]?
    let _activationType ← payload[2]?
    let sourceAddress := ((p0 <<< 8) ||| p1) % 2 ^ 16
    some
      ([0x02, 0xFD, 0x00, 0x06, 0x00, 0x00, 0x00, 0x09,
          (sourceAddress >>> 8) % 256, (sourceAddress &&& 0xFF) % 256,
          0x00, 0x00, 0x10, 0x00, 0x00, 0x00, 0x00],
        { srv with routingActivated := true })

/-- The branch `case 0x8001` of `DoIPServer::processDoIPMessage`
(doip_server.cpp:92-136), entered with the payload type and payload length
parsed from the header. -/
def processDiagnosticMessage (srv : DoIPServer) (tCheck tUpdate : Int) (data : List Nat)
    (payloadType payloadLength : Nat) : Option (List (List Nat) × DoIPServer) :=
  if srv.routingActivated then
    if payloadLength < 4 then some ([sendNegativeResponse payloadType 0x04], srv)
    else do
      let d8 ← data[8]?
      let d9 ← data[9]?
      let d10 ← data[10]?
      let d11 ← data[11]?
      let sourceAddress := ((d8 <<< 8) ||| d9) % 2 ^ 16
      let targetAddress := ((d10 <<< 8) ||| d11) % 2 ^ 16
      let udsRequest ← readRange data 12 (8 + payloadLength)
      let r := handleRequest srv.udsServer tCheck tUpdate udsRequest
      let udsResponse := r.1
      let responseLength := (4 + udsResponse.length) % 2 ^ 32
      let doipResponse :=
        [0x02, 0xFD, 0x80, 0x01,
          (responseLength >>> 24) &&& 0xFF, (responseLength >>> 16) &&& 0xFF,
          (responseLength >>> 8) &&& 0xFF, responseLength &&& 0xFF,
          (targetAddress >>> 8) &&& 0xFF, targetAddress &&& 0xFF,
          (sourceAddress >>> 8) &&& 0xFF, sourceAddress &&& 0xFF] ++ udsResponse
      some ([doipResponse], { srv with udsServer := r.2 })
  else some ([sendNegativeResponse payloadType 0x02], srv)

/-- `DoIPServer::processDoIPMessage` (doip_server.cpp:70-141): the frames sent,
in order, and the new state.  `tCheck` and `tUpdate` are the clock readings of
the call of `UDSServer::handleRequest`, if it is made.  The body of
`case 0x8001` is `processDiagnosticMessage`. -/
def processDoIPMessage (srv : DoIPServer) (tCheck tUpdate : Int) (data : List Nat)
    (length : Nat) : Option (List (List Nat) × DoIPServer) :=
  if length < 8 then some ([], srv)
  else do
    let d0 ← data[0]?
    let d1 ← data[1]?
    let d2 ← data[2]?
    let d3 ← data[3]?
    let d4 ← data[4]?
    let d5 ← data[5]?
    let d6 ← data[6]?
    let d7 ← data[7]?
    let _protocolVersion := ((d0 <<< 8) ||| d1) % 2 ^ 16
    let payloadType := ((d2 <<< 8) ||| d3) % 2 ^ 16
    let payloadLength := shiftOr32 d4 d5 d6 d7
    if payloadType = 0x0001 then some ([sendVehicleIdentificationResponse srv], srv)
    else if payloadType = 0x0005 then do
      let r ← handleRoutingActivationRequest srv (data.drop 8) payloadLength
      some ([r.1], r.2)
    else if payloadType = 0x8001 then
      processDiagnosticMessage srv tCheck tUpdate data payloadType payloadLength
    else some ([sendNegativeResponse payloadType 0x00], srv)

/-- The payload type that `processDoIPMessage` parses from the bytes at
offsets 2 and 3 of the memory block (doip_server.cpp:77), a `uint16_t`. -/
def headerPayloadType (data : List Nat) : Nat :=
  ((data.getD 2 0 <<< 8) ||| data.getD 3 0) % 2 ^ 16

/-- The payload length that `processDoIPMessage` parses from the bytes at
offsets 4 to 7 of the memory block (doip_server.cpp:78), a `uint32_t`. -/
def headerPayloadLength (data : List Nat) : Nat :=
  shiftOr32 (data.getD 4 0) (data.getD 5 0) (data.getD 6 0) (data.getD 7 0)

/-- The four bytes of the big-endian encoding of a 32-bit value. -/
def bigEndian32 (n : Nat) : List Nat :=
  [n / 2 ^ 24 % 256, n / 2 ^ 16 % 256, n / 2 ^ 8 % 256, n % 256]

end DoIP

namespace UDS

/-! ## Theorems -/

/-! ### Dispatch: what `handleRequest` does for each registered service -/

theorem handleRequest_0x10 (s : UDSServer) (tCheck tUpdate : Int) (rest : List Nat) :
    handleRequest s tCheck tUpdate (0x10 :: rest) =
      handleDiagnosticSessionControlRequest
        (updateSessionTimeout (checkSessionTimeout s tCheck) tUpdate) (0x10 :: rest) := rfl

theorem handleRequest_0x11 (s : UDSServer) (tCheck tUpdate : Int) (rest : List Nat) :
    handleRequest s tCheck tUpdate (0x11 :: rest) =
      handleECUResetRequest
        (updateSessionTimeout (checkSessionTimeout s tCheck) tUpdate) (0x11 :: rest) := rfl

theorem handleRequest_0x3E (s : UDSServer) (tCheck tUpdate : Int) (rest : List Nat) :
    handleRequest s tCheck tUpdate (0x3E :: rest) =
      handleTesterPresentRequest
        (updateSessionTimeout (checkSessionTimeout s tCheck) tUpdate) (0x3E :: rest) := rfl

theorem handleRequest_0x34 (s : UDSServer) (tCheck tUpdate : Int) (rest : List Nat) :
    handleRequest s tCheck tUpdate (0x34 :: rest) =
      handleRequestDownloadRequest
        (updateSessionTimeout (checkSessionTimeout s tCheck) tUpdate) (0x34 :: rest) := rfl

theorem handleRequest_0x36 (s : UDSServer) (tCheck tUpdate : Int) (rest : List Nat) :
    handleRequest s tCheck tUpdate (0x36 :: rest) =
      handleTransferDataRequest
        (updateSessionTimeout (checkSessionTimeout s tCheck) tUpdate) (0x36 :: rest) := rfl

theorem handleRequest_0x37 (s : UDSServer) (tCheck tUpdate : Int) (rest : List Nat) :
    handleRequest s tCheck tUpdate (0x37 :: rest) =
      handleRequestTransferExitRequest
        (updateSessionTimeout (checkSessionTimeout s tCheck) tUpdate) (0x37 :: rest) := rfl

theorem handleRequest_0x31 (s : UDSServer) (tCheck tUpdate : Int) (rest : List Nat) :
    handleRequest s tCheck tUpdate (0x31 :: rest) =
      handleRoutineControlRequest
        (updateSessionTimeout (checkSessionTimeout s tCheck) tUpdate) (0x31 :: rest) := rfl

theorem handleRequest_empty (s : UDSServer) (tCheck tUpdate : Int) :
    handleRequest s tCheck tUpdate [] =
      ([0x7F, 0x00, 0x11], updateSessionTimeout (checkSessionTimeout s tCheck) tUpdate) := rfl

theorem handleRequest_unknown (s : UDSServer) (tCheck tUpdate : Int) (S : Nat) (rest : List Nat)
    (h : services S = none) :
    handleRequest s tCheck tUpdate (S :: rest) =
      ([0x7F, S, 0x11], updateSessionTimeout (checkSessionTimeout s tCheck) tUpdate) := by
  simp only [handleRequest, h]

/-! ### First byte of the responses -/

theorem handleDiagnosticSessionControlRequest_head (s : UDSServer) (request : List Nat) :
    HeadIn (handleDiagnosticSessionControlRequest s request).1 0x50 0x7F := by
  unfold handleDiagnosticSessionControlRequest
  dsimp only
  repeat' split
  all_goals simp [HeadIn]

theorem handleECUResetRequest_head (s : UDSServer) (request : List Nat) :
    HeadIn (handleECUResetRequest s request).1 0x51 0x7F := by
  unfold handleECUResetRequest
  dsimp only
  repeat' split
  all_goals simp [HeadIn]

theorem handleTesterPresentRequest_head (s : UDSServer) (request : List Nat) :
    HeadIn (handleTesterPresentRequest s request).1 0x7E 0x7F := by
  unfold handleTesterPresentRequest
  repeat' split
  all_goals simp [HeadIn]

theorem handleRequestDownloadRequest_head (s : UDSServer) (request : List Nat) :
    HeadIn (handleRequestDownloadRequest s request).1 0x74 0x7F := by
  unfold handleRequestDownloadRequest
  repeat' split
  all_goals simp [HeadIn]

theorem handleTransferDataRequest_head (s : UDSServer) (request : List Nat) :
    HeadIn (handleTransferDataRequest s request).1 0x76 0x7F := by
  unfold handleTransferDataRequest
  dsimp only
  repeat' split
  all_goals simp [HeadIn]

theorem handleRequestTransferExitRequest_head (s : UDSServer) (request : List Nat) :
    HeadIn (handleRequestTransferExitRequest s request).1 0x77 0x7F := by
  unfold handleRequestTransferExitRequest
  repeat' split
  all_goals simp [HeadIn]

theorem handleEraseRoutine_head (s : UDSServer) (controlType : Nat) (data : List Nat) :
    HeadIn (handleEraseRoutine s controlType data).1 0x71 0x7F := by
  unfold handleEraseRoutine
  repeat' split
  all_goals simp [HeadIn]

theorem handleCheckProgrammingPreConditionsRoutine_head (s : UDSServer) (controlType : Nat)
    (data : List Nat) :
    HeadIn (handleCheckProgrammingPreConditionsRoutine s controlType data).1 0x71 0x7F := by
  unfold handleCheckProgrammingPreConditionsRoutine
  dsimp only
  repeat' split
  all_goals simp [HeadIn]

theorem handleCheckProgrammingDependenciesRoutine_head (s : UDSServer) (controlType : Nat)
    (data : List Nat) :
    HeadIn (handleCheckProgrammingDependenciesRoutine s controlType data).1 0x71 0x7F := by
  unfold handleCheckProgrammingDependenciesRoutine
  dsimp only
  repeat' split
  all_goals simp [HeadIn]

theorem handleCheckMemoryRoutine_head (s : UDSServer) (controlType : Nat) (data : List Nat) :
    HeadIn (handleCheckMemoryRoutine s controlType data).1 0x71 0x7F := by
  unfold handleCheckMemoryRoutine
  dsimp only
  repeat' split
  all_goals simp [HeadIn]

theorem handleRoutineControlRequest_head (s : UDSServer) (request : List Nat) :
    HeadIn (handleRoutineControlRequest s request).1 0x71 0x7F := by
  unfold handleRoutineControlRequest
  dsimp only
  repeat' split
  all_goals
    first
    | exact handleEraseRoutine_head _ _ _
    | exact handleCheckProgrammingPreConditionsRoutine_head _ _ _
    | exact handleCheckProgrammingDependenciesRoutine_head _ _ _
    | exact handleCheckMemoryRoutine_head _ _ _
    | simp [HeadIn]

/-- C1: for every dispatcher state, every pair of clock readings and every
non-empty request with first byte `S`, `handleRequest` returns a non-empty
response whose first byte is `S + 0x40` or `0x7F`. -/
theorem C1_response_first_byte (s : UDSServer) (tCheck tUpdate : Int) (S : Nat)
    (rest : List Nat) :
    ∃ r0 rs, (handleRequest s tCheck tUpdate (S :: rest)).1 = r0 :: rs ∧
      (r0 = S + 0x40 ∨ r0 = 0x7F) := by
  show HeadIn _ _ _
  by_cases h : services S = none
  · rw [handleRequest_unknown _ _ _ _ _ h]
    simp [HeadIn]
  · unfold services at h
    split_ifs at h with h1 h2 h3 h4 h5 h6 h7
    · subst h1
      exact handleDiagnosticSessionControlRequest_head _ _
    · subst h2
      exact handleECUResetRequest_head _ _
    · subst h3
      exact handleTesterPresentRequest_head _ _
    · subst h4
      exact handleRequestDownloadRequest_head _ _
    · subst h5
      exact handleTransferDataRequest_head _ _
    · subst h6
      rw [handleRequest_0x37]
      exact handleRequestTransferExitRequest_head _ _
    · subst h7
      exact handleRoutineControlRequest_head _ _
    · exact absurd rfl h

/-! ### Service 0x36, TransferData -/

/-- The `uint32_t` computation `(counter + 1) % 256` is the successor modulo 256. -/
theorem counter_succ_mod (n : Nat) : (n + 1) % 2 ^ 32 % 256 = (n + 1) % 256 :=
  Nat.mod_mod_of_dvd _ (by norm_num)

/-- TransferData with a wrong block-sequence counter, in a state with an
active download: NRC 0x73 and no change of state. -/
theorem handleTransferDataRequest_wrong_counter (s : UDSServer) (m : MemoryAddress)
    (sid c : Nat) (data : List Nat)
    (hctx : s.currentDownloadMemoryAddress = some m) (htip : s.transferInProgress = true)
    (hc : c ≠ (s.currentBlockSequenceCounter + 1) % 256) :
    handleTransferDataRequest s (sid :: c :: data) = ([0x7F, 0x36, 0x73], s) := by
  unfold handleTransferDataRequest
  have hlen : ¬ (sid :: c :: data).length < 2 := by simp
  rw [if_neg hlen]
  split
  · rename_i h
    rw [hctx] at h
    cases h
  · rw [if_neg (by simp [htip])]
    dsimp only
    rw [List.getD_cons_succ, List.getD_cons_zero, counter_succ_mod, if_pos hc]

/-- TransferData with the expected block-sequence counter, in a state with an
active download: the positive response and the new state. -/
theorem handleTransferDataRequest_in_sequence (s : UDSServer) (m : MemoryAddress)
    (sid c : Nat) (data : List Nat)
    (hctx : s.currentDownloadMemoryAddress = some m) (htip : s.transferInProgress = true)
    (hc : c = (s.currentBlockSequenceCounter + 1) % 256) :
    handleTransferDataRequest s (sid :: c :: data) =
      ([0x76, c],
        if m.size ≤ (s.downloadBuffer ++ data).length then
          { s with
            downloadBuffer := (s.downloadBuffer ++ data).take m.size
            currentDownloadMemoryAddress := none
            currentBlockSequenceCounter := 0 }
        else
          { s with
            currentBlockSequenceCounter := c
            downloadBuffer := s.downloadBuffer ++ data }) := by
  unfold handleTransferDataRequest
  have hlen : ¬ (sid :: c :: data).length < 2 := by simp
  rw [if_neg hlen]
  split
  · rename_i h
    rw [hctx] at h
    cases h
  · rename_i m1 h
    rw [hctx] at h
    cases h
    rw [if_neg (by simp [htip])]
    dsimp only
    rw [List.getD_cons_succ, List.getD_cons_zero, counter_succ_mod, if_neg (not_not.mpr hc)]
    simp only [ge_iff_le, List.drop_succ_cons, List.drop_zero]
    by_cases hsz : m.size ≤ (s.downloadBuffer ++ data).length
    · rw [if_pos hsz, if_pos hsz, vectorResize, Nat.sub_eq_zero_of_le hsz]
      simp
    · rw [if_neg hsz, if_neg hsz]

/-- A successful RequestDownload: PROGRAMMING session and at least eight bytes
after the first three. -/
theorem handleRequestDownloadRequest_ok (s : UDSServer) (request : List Nat)
    (hs : s.currentSession = DiagnosticSession.PROGRAMMING) (hlen : 11 ≤ request.length) :
    ∃ m, parseMemoryAddress (request.drop 3) = some m ∧
      handleRequestDownloadRequest s request =
        ([0x74, 0x04, 0x00],
          { s with
            currentDownloadMemoryAddress := some m
            currentBlockSequenceCounter := 0
            downloadBuffer := []
            transferInProgress := true }) := by
  have h8 : ¬ (request.drop 3).length < 8 := by
    rw [List.length_drop]; omega
  have h3 : ¬ request.length < 3 := by omega
  refine ⟨_, if_neg h8, ?_⟩
  unfold handleRequestDownloadRequest
  rw [if_neg h3]
  simp only [parseMemoryAddress, if_neg h8, hs]
  simp

/-- C2: in a state with a download context and a transfer in progress, a
TransferData request of at least two bytes whose counter byte differs from
(stored counter + 1) mod 256 is answered `7F 36 73`; the handler leaves the
whole state unchanged, and through `handleRequest` only the dispatcher's own
timeout bookkeeping acts on the state.  After a successful RequestDownload a
first block with counter 0 is rejected in this way, and a following block with
counter 1 is accepted with `76 01`. -/
theorem C2_wrong_counter_rejected (s : UDSServer) (m : MemoryAddress) (c : Nat)
    (data : List Nat) (s0 : UDSServer) (download d0 d1 : List Nat)
    (hctx : s.currentDownloadMemoryAddress = some m) (htip : s.transferInProgress = true)
    (hc : c ≠ (s.currentBlockSequenceCounter + 1) % 256)
    (hs0 : s0.currentSession = DiagnosticSession.PROGRAMMING) (hlen : 11 ≤ download.length) :
    handleTransferDataRequest s (0x36 :: c :: data) = ([0x7F, 0x36, 0x73], s) ∧
    (∀ tCheck tUpdate : Int,
      handleRequest s tCheck tUpdate (0x36 :: c :: data) =
        ([0x7F, 0x36, 0x73], updateSessionTimeout (checkSessionTimeout s tCheck) tUpdate)) ∧
    (handleRequestDownloadRequest s0 download).1 = [0x74, 0x04, 0x00] ∧
    handleTransferDataRequest (handleRequestDownloadRequest s0 download).2 (0x36 :: 0 :: d0) =
      ([0x7F, 0x36, 0x73], (handleRequestDownloadRequest s0 download).2) ∧
    (handleTransferDataRequest
      (handleTransferDataRequest (handleRequestDownloadRequest s0 download).2
        (0x36 :: 0 :: d0)).2 (0x36 :: 1 :: d1)).1 = [0x76, 0x01] := by
  refine ⟨handleTransferDataRequest_wrong_counter s m _ c data hctx htip hc, ?_, ?_⟩
  · intro tCheck tUpdate
    rw [handleRequest_0x36]
    apply handleTransferDataRequest_wrong_counter _ m
    · simp only [updateSessionTimeout, checkSessionTimeout]
      split <;> exact hctx
    · simp only [updateSessionTimeout, checkSessionTimeout]
      split <;> exact htip
    · simp only [updateSessionTimeout, checkSessionTimeout]
      split <;> exact hc
  · obtain ⟨m0, -, hd⟩ := handleRequestDownloadRequest_ok s0 download hs0 hlen
    rw [hd]
    refine ⟨rfl, ?_⟩
    have key : ∀ s1 : UDSServer, s1.currentDownloadMemoryAddress = some m0 →
        s1.transferInProgress = true → s1.currentBlockSequenceCounter = 0 →
        handleTransferDataRequest s1 (0x36 :: 0 :: d0) = ([0x7F, 0x36, 0x73], s1) ∧
        (handleTransferDataRequest (handleTransferDataRequest s1 (0x36 :: 0 :: d0)).2
          (0x36 :: 1 :: d1)).1 = [0x76, 0x01] := by
      intro s1 h1 h2 h3
      have hrej := handleTransferDataRequest_wrong_counter s1 m0 0x36 0 d0 h1 h2
        (by rw [h3]; decide)
      refine ⟨hrej, ?_⟩
      rw [hrej, handleTransferDataRequest_in_sequence s1 m0 0x36 1 d1 h1 h2 (by rw [h3])]
    exact key _ rfl rfl rfl

/-- C2 at a concrete input: session PROGRAMMING, download of four bytes at
address 0x1000, one block accepted, then a block with counter 3. -/
theorem C2_wrong_counter_rejected_witness :
    handleTransferDataRequest
        { UDSServer.init 0 ⟨0, 0⟩ with
          currentSession := DiagnosticSession.PROGRAMMING
          currentDownloadMemoryAddress := some ⟨0x1000, 4⟩
          currentBlockSequenceCounter := 1
          downloadBuffer := [0xDE]
          transferInProgress := true } [0x36, 0x03, 0xAA] =
      ([0x7F, 0x36, 0x73],
        { UDSServer.init 0 ⟨0, 0⟩ with
          currentSession := DiagnosticSession.PROGRAMMING
          currentDownloadMemoryAddress := some ⟨0x1000, 4⟩
          currentBlockSequenceCounter := 1
          downloadBuffer := [0xDE]
          transferInProgress := true }) :=
  (C2_wrong_counter_rejected
    { UDSServer.init 0 ⟨0, 0⟩ with
      currentSession := DiagnosticSession.PROGRAMMING
      currentDownloadMemoryAddress := some ⟨0x1000, 4⟩
      currentBlockSequenceCounter := 1
      downloadBuffer := [0xDE]
      transferInProgress := true } ⟨0x1000, 4⟩ 0x03 [0xAA]
    { UDSServer.init 0 ⟨0, 0⟩ with currentSession := DiagnosticSession.PROGRAMMING }
    [0x34, 0x00, 0x44, 0x00, 0x00, 0x10, 0x00, 0x00, 0x00, 0x00, 0x04] [0xAA] [0xAA]
    rfl rfl (by decide) rfl (by decide)).1

/-- What the two timeout calls at the head of `handleRequest` do to the state:
they set the last-activity time and may revert session and timeout. -/
theorem updateSessionTimeout_checkSessionTimeout (s : UDSServer) (tCheck tUpdate : Int) :
    updateSessionTimeout (checkSessionTimeout s tCheck) tUpdate =
      { s with
        currentSession := (checkSessionTimeout s tCheck).currentSession
        sessionTimeout := (checkSessionTimeout s tCheck).sessionTimeout
        lastActivityTime := tUpdate } := by
  unfold updateSessionTimeout checkSessionTimeout
  dsimp only
  split <;> rfl

/-- TransferData neither reads nor writes session, timeout and last-activity
time. -/
theorem handleTransferDataRequest_frame (s : UDSServer) (sess : DiagnosticSession)
    (timeout lastActivity : Int) (request : List Nat) :
    handleTransferDataRequest
        { s with
          currentSession := sess, sessionTimeout := timeout, lastActivityTime := lastActivity }
        request =
      ((handleTransferDataRequest s request).1,
        { (handleTransferDataRequest s request).2 with
          currentSession := sess, sessionTimeout := timeout, lastActivityTime := lastActivity }) := by
  unfold handleTransferDataRequest
  dsimp only
  repeat' split
  all_goals rfl

/-- C3: in a state with an active download of declared size `m.size` and
buffer `b`, a TransferData request `[0x36, c, d...]` with
`c = (stored counter + 1) mod 256` is answered `{0x76, c}`.  If
`length (b ++ d) < m.size` the buffer becomes `b ++ d`, the stored counter `c`
and the context stays; otherwise the buffer becomes the first `m.size` bytes of
`b ++ d` (of length `m.size`), the context is cleared and the counter is 0.
No other field changes, and `handleRequest` gives the same response and the
same download fields for any clock readings. -/
theorem C3_in_sequence_block (s : UDSServer) (m : MemoryAddress) (c : Nat) (d : List Nat)
    (hctx : s.currentDownloadMemoryAddress = some m) (htip : s.transferInProgress = true)
    (hc : c = (s.currentBlockSequenceCounter + 1) % 256) :
    (handleTransferDataRequest s (0x36 :: c :: d)).1 = [0x76, c] ∧
    ((s.downloadBuffer ++ d).length < m.size →
      (handleTransferDataRequest s (0x36 :: c :: d)).2 =
        { s with currentBlockSequenceCounter := c, downloadBuffer := s.downloadBuffer ++ d }) ∧
    (m.size ≤ (s.downloadBuffer ++ d).length →
      (handleTransferDataRequest s (0x36 :: c :: d)).2 =
        { s with
          downloadBuffer := (s.downloadBuffer ++ d).take m.size
          currentDownloadMemoryAddress := none
          currentBlockSequenceCounter := 0 } ∧
      ((s.downloadBuffer ++ d).take m.size).length = m.size) ∧
    (∀ tCheck tUpdate : Int,
      (handleRequest s tCheck tUpdate (0x36 :: c :: d)).1 = [0x76, c] ∧
      (handleRequest s tCheck tUpdate (0x36 :: c :: d)).2.downloadBuffer =
        (handleTransferDataRequest s (0x36 :: c :: d)).2.downloadBuffer ∧
      (handleRequest s tCheck tUpdate (0x36 :: c :: d)).2.currentBlockSequenceCounter =
        (handleTransferDataRequest s (0x36 :: c :: d)).2.currentBlockSequenceCounter ∧
      (handleRequest s tCheck tUpdate (0x36 :: c :: d)).2.currentDownloadMemoryAddress =
        (handleTransferDataRequest s (0x36 :: c :: d)).2.currentDownloadMemoryAddress) := by
  have h := handleTransferDataRequest_in_sequence s m 0x36 c d hctx htip hc
  refine ⟨by rw [h], ?_, ?_, ?_⟩
  · intro hlt
    rw [h, if_neg (by omega)]
  · intro hle
    refine ⟨by rw [h, if_pos hle], ?_⟩
    rw [List.length_take]
    omega
  · intro tCheck tUpdate
    rw [handleRequest_0x36, updateSessionTimeout_checkSessionTimeout,
      handleTransferDataRequest_frame, h]
    exact ⟨rfl, rfl, rfl, rfl⟩

/-- C3 at a concrete input: declared size 4, buffer `[DE, AD]`, stored counter
1, block `36 02 BE EF 00` completes the download and the excess byte is cut. -/
theorem C3_in_sequence_block_witness :
    (handleTransferDataRequest
        { UDSServer.init 0 ⟨0, 0⟩ with
          currentSession := DiagnosticSession.PROGRAMMING
          currentDownloadMemoryAddress := some ⟨0x1000, 4⟩
          currentBlockSequenceCounter := 1
          downloadBuffer := [0xDE, 0xAD]
          transferInProgress := true } [0x36, 0x02, 0xBE, 0xEF, 0x00]).2 =
      { UDSServer.init 0 ⟨0, 0⟩ with
        currentSession := DiagnosticSession.PROGRAMMING
        currentDownloadMemoryAddress := none
        currentBlockSequenceCounter := 0
        downloadBuffer := [0xDE, 0xAD, 0xBE, 0xEF]
        transferInProgress := true } :=
  ((C3_in_sequence_block
    { UDSServer.init 0 ⟨0, 0⟩ with
      currentSession := DiagnosticSession.PROGRAMMING
      currentDownloadMemoryAddress := some ⟨0x1000, 4⟩
      currentBlockSequenceCounter := 1
      downloadBuffer := [0xDE, 0xAD]
      transferInProgress := true } ⟨0x1000, 4⟩ 0x02 [0xBE, 0xEF, 0x00]
    rfl rfl (by decide)).2.2.1 (by decide)).1

/-! ### The download invariant -/

theorem downloadInv_init (now : Int) (ea : MemoryAddress) : DownloadInv (UDSServer.init now ea) := by
  simp [DownloadInv, UDSServer.init]

theorem downloadInv_checkSessionTimeout (s : UDSServer) (t : Int) (h : DownloadInv s) :
    DownloadInv (checkSessionTimeout s t) := by
  unfold checkSessionTimeout
  dsimp only
  split <;> exact h

theorem downloadInv_handleDiagnosticSessionControlRequest (s : UDSServer) (request : List Nat)
    (h : DownloadInv s) : DownloadInv (handleDiagnosticSessionControlRequest s request).2 := by
  unfold handleDiagnosticSessionControlRequest
  dsimp only
  repeat' split
  all_goals exact h

theorem downloadInv_handleECUResetRequest (s : UDSServer) (request : List Nat)
    (h : DownloadInv s) : DownloadInv (handleECUResetRequest s request).2 := by
  unfold handleECUResetRequest
  dsimp only
  repeat' split
  all_goals exact h

theorem downloadInv_handleTesterPresentRequest (s : UDSServer) (request : List Nat)
    (h : DownloadInv s) : DownloadInv (handleTesterPresentRequest s request).2 := by
  unfold handleTesterPresentRequest
  repeat' split
  all_goals exact h

theorem downloadInv_handleRoutineControlRequest (s : UDSServer) (request : List Nat)
    (h : DownloadInv s) : DownloadInv (handleRoutineControlRequest s request).2 := by
  unfold handleRoutineControlRequest
  dsimp only
  repeat' split
  · exact h
  · exact h
  · unfold handleEraseRoutine
    repeat' split
    all_goals exact h
  · unfold handleCheckProgrammingPreConditionsRoutine
    dsimp only
    repeat' split
    all_goals exact h
  · unfold handleCheckProgrammingDependenciesRoutine
    dsimp only
    repeat' split
    all_goals exact h
  · unfold handleCheckMemoryRoutine
    dsimp only
    repeat' split
    all_goals exact h
  · exact h

theorem downloadInv_handleRequestDownloadRequest (s : UDSServer) (request : List Nat)
    (h : DownloadInv s) : DownloadInv (handleRequestDownloadRequest s request).2 := by
  unfold handleRequestDownloadRequest
  repeat' split
  · exact h
  · exact h
  · exact h
  · simp [DownloadInv]

theorem downloadInv_handleTransferDataRequest (s : UDSServer) (request : List Nat)
    (h : DownloadInv s) : DownloadInv (handleTransferDataRequest s request).2 := by
  unfold handleTransferDataRequest
  dsimp only
  repeat' split
  · exact h
  · exact h
  · exact h
  · exact h
  · rename_i htip _ _
    simp only [DownloadInv]
    constructor
    · intro m hm
      cases hm
    · intro hf
      simp [hf] at htip
  · rename_i m hctx htip _ hlen
    simp only [DownloadInv]
    constructor
    · intro m1 hm
      rw [hctx] at hm
      cases hm
      exact ⟨by simpa using htip, by omega⟩
    · intro hf
      simp [hf] at htip

theorem downloadInv_handleRequestTransferExitRequest (s : UDSServer) (request : List Nat)
    (h : DownloadInv s) : DownloadInv (handleRequestTransferExitRequest s request).2 := by
  unfold handleRequestTransferExitRequest
  split
  · exact h
  · simp [DownloadInv]

theorem downloadInv_handleRequest (s : UDSServer) (tCheck tUpdate : Int) (request : List Nat)
    (h : DownloadInv s) : DownloadInv (handleRequest s tCheck tUpdate request).2 := by
  have hb : DownloadInv (updateSessionTimeout (checkSessionTimeout s tCheck) tUpdate) :=
    downloadInv_checkSessionTimeout s tCheck h
  cases request with
  | nil => exact hb
  | cons S rest =>
    by_cases hS : services S = none
    · rw [handleRequest_unknown _ _ _ _ _ hS]
      exact hb
    · unfold services at hS
      split_ifs at hS with h1 h2 h3 h4 h5 h6 h7
      · subst h1
        exact downloadInv_handleDiagnosticSessionControlRequest _ _ hb
      · subst h2
        exact downloadInv_handleECUResetRequest _ _ hb
      · subst h3
        exact downloadInv_handleTesterPresentRequest _ _ hb
      · subst h4
        exact downloadInv_handleRequestDownloadRequest _ _ hb
      · subst h5
        exact downloadInv_handleTransferDataRequest _ _ hb
      · subst h6
        exact downloadInv_handleRequestTransferExitRequest _ (0x37 :: rest) hb
      · subst h7
        exact downloadInv_handleRoutineControlRequest _ _ hb
      · exact absurd rfl hS

/-- Every reachable dispatcher state satisfies the download invariant. -/
theorem reachable_downloadInv (s : UDSServer) (h : Reachable s) : DownloadInv s := by
  induction h with
  | init now ea => exact downloadInv_init now ea
  | step s tCheck tUpdate request _ ih => exact downloadInv_handleRequest s tCheck tUpdate request ih

/-- C4, as the code has it: in every reachable dispatcher state a present
download context implies `transferInProgress`.  The converse is not part of
the statement: a completed download leaves `transferInProgress` set. -/
theorem C4_context_implies_transferInProgress (s : UDSServer) (h : Reachable s)
    (hctx : s.currentDownloadMemoryAddress ≠ none) : s.transferInProgress = true := by
  cases hm : s.currentDownloadMemoryAddress with
  | none => exact absurd hm hctx
  | some m => exact ((reachable_downloadInv s h).1 m hm).1

/-- C4 at a concrete reachable state: after `10 02` and a RequestDownload the
context is present and the transfer is in progress. -/
theorem C4_context_implies_transferInProgress_witness :
    (handleRequest (handleRequest (UDSServer.init 0 ⟨0, 0⟩) 0 0 [0x10, 0x02]).2 0 0
      [0x34, 0x00, 0x44, 0x00, 0x00, 0x10, 0x00, 0x00, 0x00, 0x00, 0x04]).2.transferInProgress
      = true :=
  C4_context_implies_transferInProgress _
    (Reachable.step _ 0 0 _ (Reachable.step _ 0 0 _ (Reachable.init 0 ⟨0, 0⟩))) (by decide)

/-- C4 as stated fails: after `10 02`, a RequestDownload of four bytes and the
block `36 01 DE AD BE EF`, which completes the download, the context is absent
while `transferInProgress` is still true. -/
theorem C4_transferInProgress_without_context :
    ¬ ∀ s : UDSServer, Reachable s →
      (s.transferInProgress = true ↔ s.currentDownloadMemoryAddress ≠ none) := by
  intro h
  have hr : Reachable
      (handleRequest
        (handleRequest (handleRequest (UDSServer.init 0 ⟨0, 0⟩) 0 0 [0x10, 0x02]).2 0 0
          [0x34, 0x00, 0x44, 0x00, 0x00, 0x10, 0x00, 0x00, 0x00, 0x00, 0x04]).2 0 0
        [0x36, 0x01, 0xDE, 0xAD, 0xBE, 0xEF]).2 :=
    Reachable.step _ 0 0 _ (Reachable.step _ 0 0 _ (Reachable.step _ 0 0 _ (Reachable.init 0 ⟨0, 0⟩)))
  exact absurd ((h _ hr).1 (by decide)) (by decide)

/-! ### Service 0x34, RequestDownload -/

/-- On a little-endian host, `memcpy` of four bytes followed by
`__builtin_bswap32` yields the big-endian value of the four bytes. -/
theorem bswap32_memcpy32 (b0 b1 b2 b3 : Nat) (h0 : b0 < 256) (h1 : b1 < 256) (h2 : b2 < 256)
    (h3 : b3 < 256) :
    bswap32 (memcpy32 b0 b1 b2 b3) = b0 * 2 ^ 24 + b1 * 2 ^ 16 + b2 * 2 ^ 8 + b3 := by
  unfold bswap32 memcpy32
  norm_num
  omega

/-- A RequestDownload request with fewer than eleven bytes is answered with
NRC 0x13 in every state, and the state is unchanged. -/
theorem handleRequestDownloadRequest_short (s : UDSServer) (request : List Nat)
    (hlen : request.length < 11) :
    handleRequestDownloadRequest s request = ([0x7F, 0x34, 0x13], s) := by
  unfold handleRequestDownloadRequest
  split
  · rfl
  · have h8 : (request.drop 3).length < 8 := by
      rw [List.length_drop]; omega
    simp only [parseMemoryAddress, if_pos h8]

/-- The download context that `parseMemoryAddress` extracts from eight bytes
(followed by anything) is their big-endian reading. -/
theorem parseMemoryAddress_bigEndian (a0 a1 a2 a3 z0 z1 z2 z3 : Nat) (rest : List Nat)
    (ha0 : a0 < 256) (ha1 : a1 < 256) (ha2 : a2 < 256) (ha3 : a3 < 256)
    (hz0 : z0 < 256) (hz1 : z1 < 256) (hz2 : z2 < 256) (hz3 : z3 < 256) :
    parseMemoryAddress (a0 :: a1 :: a2 :: a3 :: z0 :: z1 :: z2 :: z3 :: rest) =
      some
        { address := a0 * 2 ^ 24 + a1 * 2 ^ 16 + a2 * 2 ^ 8 + a3
          size := z0 * 2 ^ 24 + z1 * 2 ^ 16 + z2 * 2 ^ 8 + z3 } := by
  have hlen : ¬ (a0 :: a1 :: a2 :: a3 :: z0 :: z1 :: z2 :: z3 :: rest).length < 8 := by
    simp
  unfold parseMemoryAddress
  rw [if_neg hlen]
  simp only [List.getD_cons_succ, List.getD_cons_zero]
  rw [bswap32_memcpy32 a0 a1 a2 a3 ha0 ha1 ha2 ha3, bswap32_memcpy32 z0 z1 z2 z3 hz0 hz1 hz2 hz3]

/-- C5: in the PROGRAMMING session (whatever the download fields hold, a
transfer in progress included) a RequestDownload request
`[0x34, dfi, alfi, a0..a3, z0..z3, ...]` is answered `{0x74, 0x04, 0x00}`;
afterwards the download context holds the big-endian address and size, the
counter is 0, the buffer is empty and `transferInProgress` is true, and no
other field has changed.  The same holds through `handleRequest` when the
session is still PROGRAMMING after the timeout check.  A request with fewer
than eight bytes after the first three is answered `{0x7F, 0x34, 0x13}` and
the state is unchanged. -/
theorem C5_request_download (s : UDSServer) (dfi alfi a0 a1 a2 a3 z0 z1 z2 z3 : Nat)
    (rest : List Nat) (short : List Nat)
    (hs : s.currentSession = DiagnosticSession.PROGRAMMING)
    (ha0 : a0 < 256) (ha1 : a1 < 256) (ha2 : a2 < 256) (ha3 : a3 < 256)
    (hz0 : z0 < 256) (hz1 : z1 < 256) (hz2 : z2 < 256) (hz3 : z3 < 256)
    (hshort : short.length < 3 + 8) :
    handleRequestDownloadRequest s
        (0x34 :: dfi :: alfi :: a0 :: a1 :: a2 :: a3 :: z0 :: z1 :: z2 :: z3 :: rest) =
      ([0x74, 0x04, 0x00],
        { s with
          currentDownloadMemoryAddress :=
            some
              { address := a0 * 2 ^ 24 + a1 * 2 ^ 16 + a2 * 2 ^ 8 + a3
                size := z0 * 2 ^ 24 + z1 * 2 ^ 16 + z2 * 2 ^ 8 + z3 }
          currentBlockSequenceCounter := 0
          downloadBuffer := []
          transferInProgress := true }) ∧
    (∀ tCheck tUpdate : Int,
      (checkSessionTimeout s tCheck).currentSession = DiagnosticSession.PROGRAMMING →
      handleRequest s tCheck tUpdate
          (0x34 :: dfi :: alfi :: a0 :: a1 :: a2 :: a3 :: z0 :: z1 :: z2 :: z3 :: rest) =
        ([0x74, 0x04, 0x00],
          { updateSessionTimeout (checkSessionTimeout s tCheck) tUpdate with
            currentDownloadMemoryAddress :=
              some
                { address := a0 * 2 ^ 24 + a1 * 2 ^ 16 + a2 * 2 ^ 8 + a3
                  size := z0 * 2 ^ 24 + z1 * 2 ^ 16 + z2 * 2 ^ 8 + z3 }
            currentBlockSequenceCounter := 0
            downloadBuffer := []
            transferInProgress := true })) ∧
    handleRequestDownloadRequest s short = ([0x7F, 0x34, 0x13], s) ∧
    (∀ (tCheck tUpdate : Int) (tail : List Nat), tail.length < 2 + 8 →
      handleRequest s tCheck tUpdate (0x34 :: tail) =
        ([0x7F, 0x34, 0x13], updateSessionTimeout (checkSessionTimeout s tCheck) tUpdate)) := by
  have key : ∀ u : UDSServer, u.currentSession = DiagnosticSession.PROGRAMMING →
      handleRequestDownloadRequest u
          (0x34 :: dfi :: alfi :: a0 :: a1 :: a2 :: a3 :: z0 :: z1 :: z2 :: z3 :: rest) =
        ([0x74, 0x04, 0x00],
          { u with
            currentDownloadMemoryAddress :=
              some
                { address := a0 * 2 ^ 24 + a1 * 2 ^ 16 + a2 * 2 ^ 8 + a3
                  size := z0 * 2 ^ 24 + z1 * 2 ^ 16 + z2 * 2 ^ 8 + z3 }
            currentBlockSequenceCounter := 0
            downloadBuffer := []
            transferInProgress := true }) := by
    intro u hu
    obtain ⟨m, hm, hd⟩ := handleRequestDownloadRequest_ok u
      (0x34 :: dfi :: alfi :: a0 :: a1 :: a2 :: a3 :: z0 :: z1 :: z2 :: z3 :: rest) hu
      (by simp)
    simp only [List.drop_succ_cons, List.drop_zero] at hm
    rw [parseMemoryAddress_bigEndian a0 a1 a2 a3 z0 z1 z2 z3 rest ha0 ha1 ha2 ha3 hz0 hz1 hz2 hz3]
      at hm
    cases hm
    exact hd
  refine ⟨key s hs, ?_, handleRequestDownloadRequest_short s short hshort, ?_⟩
  · intro tCheck tUpdate hsess
    rw [handleRequest_0x34]
    exact key _ hsess
  · intro tCheck tUpdate tail htail
    rw [handleRequest_0x34]
    exact handleRequestDownloadRequest_short _ _ (by simp; omega)

/-- C5 at a concrete input: address 0x00001000, size 0x00000004, while an
earlier transfer is still in progress; and the ten-byte request that lacks the
last size byte. -/
theorem C5_request_download_witness :
    handleRequestDownloadRequest
        { UDSServer.init 0 ⟨0, 0⟩ with
          currentSession := DiagnosticSession.PROGRAMMING
          currentDownloadMemoryAddress := some ⟨0x2000, 8⟩
          currentBlockSequenceCounter := 1
          downloadBuffer := [0xDE]
          transferInProgress := true }
        [0x34, 0x00, 0x44, 0x00, 0x00, 0x10, 0x00, 0x00, 0x00, 0x00, 0x04] =
      ([0x74, 0x04, 0x00],
        { UDSServer.init 0 ⟨0, 0⟩ with
          currentSession := DiagnosticSession.PROGRAMMING
          currentDownloadMemoryAddress := some ⟨0x1000, 4⟩
          currentBlockSequenceCounter := 0
          downloadBuffer := []
          transferInProgress := true }) :=
  (C5_request_download
    { UDSServer.init 0 ⟨0, 0⟩ with
      currentSession := DiagnosticSession.PROGRAMMING
      currentDownloadMemoryAddress := some ⟨0x2000, 8⟩
      currentBlockSequenceCounter := 1
      downloadBuffer := [0xDE]
      transferInProgress := true }
    0x00 0x44 0x00 0x00 0x10 0x00 0x00 0x00 0x00 0x04 []
    [0x34, 0x00, 0x44, 0x00, 0x00, 0x10, 0x00, 0x00, 0x00, 0x00]
    rfl (by decide) (by decide) (by decide) (by decide) (by decide) (by decide) (by decide)
    (by decide) (by decide)).1

/-- The timeout check never enters the PROGRAMMING session. -/
theorem checkSessionTimeout_not_programming (s : UDSServer) (t : Int)
    (hs : s.currentSession ≠ DiagnosticSession.PROGRAMMING) :
    (checkSessionTimeout s t).currentSession ≠ DiagnosticSession.PROGRAMMING := by
  unfold checkSessionTimeout
  dsimp only
  split
  · simp
  · exact hs

/-- RequestDownload outside the PROGRAMMING session, with at least eleven
bytes: NRC 0x22 and no change of state. -/
theorem handleRequestDownloadRequest_wrong_session (s : UDSServer) (request : List Nat)
    (hs : s.currentSession ≠ DiagnosticSession.PROGRAMMING) (hlen : 11 ≤ request.length) :
    handleRequestDownloadRequest s request = ([0x7F, 0x34, 0x22], s) := by
  have h8 : ¬ (request.drop 3).length < 8 := by
    rw [List.length_drop]; omega
  have h3 : ¬ request.length < 3 := by omega
  unfold handleRequestDownloadRequest
  rw [if_neg h3]
  simp only [parseMemoryAddress, if_neg h8]
  rw [if_pos hs]

/-- C6, as the code has it: outside the PROGRAMMING session a RequestDownload
request of at least eleven bytes is answered `{0x7F, 0x34, 0x22}` and one of
fewer than eleven bytes `{0x7F, 0x34, 0x13}` (the length checks come before the
session check); in both cases the handler leaves the state unchanged, so no
download state is created, and through `handleRequest` only the timeout
bookkeeping acts on the state. -/
theorem C6_request_download_wrong_session (s : UDSServer) (request : List Nat)
    (hs : s.currentSession ≠ DiagnosticSession.PROGRAMMING) :
    (11 ≤ request.length →
      handleRequestDownloadRequest s request = ([0x7F, 0x34, 0x22], s)) ∧
    (request.length < 11 →
      handleRequestDownloadRequest s request = ([0x7F, 0x34, 0x13], s)) ∧
    (∀ (tCheck tUpdate : Int) (tail : List Nat),
      (10 ≤ tail.length →
        handleRequest s tCheck tUpdate (0x34 :: tail) =
          ([0x7F, 0x34, 0x22], updateSessionTimeout (checkSessionTimeout s tCheck) tUpdate)) ∧
      (tail.length < 10 →
        handleRequest s tCheck tUpdate (0x34 :: tail) =
          ([0x7F, 0x34, 0x13], updateSessionTimeout (checkSessionTimeout s tCheck) tUpdate))) := by
  refine ⟨handleRequestDownloadRequest_wrong_session s request hs,
    handleRequestDownloadRequest_short s request, ?_⟩
  intro tCheck tUpdate tail
  constructor
  · intro h
    rw [handleRequest_0x34]
    exact handleRequestDownloadRequest_wrong_session _ _
      (checkSessionTimeout_not_programming s tCheck hs) (by simp; omega)
  · intro h
    rw [handleRequest_0x34]
    exact handleRequestDownloadRequest_short _ _ (by simp; omega)

/-- C6 at a concrete input: a well-formed RequestDownload in the DEFAULT
session. -/
theorem C6_request_download_wrong_session_witness :
    handleRequestDownloadRequest (UDSServer.init 0 ⟨0, 0⟩)
        [0x34, 0x00, 0x44, 0x00, 0x00, 0x10, 0x00, 0x00, 0x00, 0x00, 0x04] =
      ([0x7F, 0x34, 0x22], UDSServer.init 0 ⟨0, 0⟩) :=
  (C6_request_download_wrong_session (UDSServer.init 0 ⟨0, 0⟩)
    [0x34, 0x00, 0x44, 0x00, 0x00, 0x10, 0x00, 0x00, 0x00, 0x00, 0x04] (by decide)).1
    (by decide)

/-- C6 as stated fails: in the DEFAULT session the three-byte request
`34 00 44` is answered `7F 34 13`, not `7F 34 22`. -/
theorem C6_short_request_gets_0x13 :
    ¬ ∀ (s : UDSServer) (tail : List Nat),
      s.currentSession ≠ DiagnosticSession.PROGRAMMING →
      (handleRequestDownloadRequest s (0x34 :: tail)).1 = [0x7F, 0x34, 0x22] := by
  intro h
  exact absurd (h (UDSServer.init 0 ⟨0, 0⟩) [0x00, 0x44] (by decide)) (by decide)

/-! ### Service 0x37, RequestTransferExit -/

/-- RequestTransferExit neither reads nor writes session, timeout and
last-activity time. -/
theorem handleRequestTransferExitRequest_frame (s : UDSServer) (sess : DiagnosticSession)
    (timeout lastActivity : Int) (request : List Nat) :
    handleRequestTransferExitRequest
        { s with
          currentSession := sess, sessionTimeout := timeout, lastActivityTime := lastActivity }
        request =
      ((handleRequestTransferExitRequest s request).1,
        { (handleRequestTransferExitRequest s request).2 with
          currentSession := sess, sessionTimeout := timeout, lastActivityTime := lastActivity }) := by
  unfold handleRequestTransferExitRequest
  dsimp only
  split <;> rfl

/-- C7: for a request with first byte 0x37, if `transferInProgress` is false
the response is `{0x7F, 0x37, 0x22}` and the state is unchanged; if it is true
the response is `{0x77}` and afterwards the download context is absent, the
counter is 0, the buffer is empty and `transferInProgress` is false, every
other field (session, timeout, tester-present, erase state) being unchanged.
Through `handleRequest` the same holds on top of the timeout bookkeeping. -/
theorem C7_request_transfer_exit (s : UDSServer) (rest : List Nat) :
    (s.transferInProgress = false →
      handleRequestTransferExitRequest s (0x37 :: rest) = ([0x7F, 0x37, 0x22], s) ∧
      ∀ tCheck tUpdate : Int,
        handleRequest s tCheck tUpdate (0x37 :: rest) =
          ([0x7F, 0x37, 0x22], updateSessionTimeout (checkSessionTimeout s tCheck) tUpdate)) ∧
    (s.transferInProgress = true →
      handleRequestTransferExitRequest s (0x37 :: rest) =
        ([0x77],
          { s with
            currentDownloadMemoryAddress := none
            currentBlockSequenceCounter := 0
            downloadBuffer := []
            transferInProgress := false }) ∧
      ∀ tCheck tUpdate : Int,
        handleRequest s tCheck tUpdate (0x37 :: rest) =
          ([0x77],
            { updateSessionTimeout (checkSessionTimeout s tCheck) tUpdate with
              currentDownloadMemoryAddress := none
              currentBlockSequenceCounter := 0
              downloadBuffer := []
              transferInProgress := false })) := by
  have hf : s.transferInProgress = false →
      handleRequestTransferExitRequest s (0x37 :: rest) = ([0x7F, 0x37, 0x22], s) := by
    intro h
    unfold handleRequestTransferExitRequest
    rw [if_pos (by simp [h])]
  have ht : s.transferInProgress = true →
      handleRequestTransferExitRequest s (0x37 :: rest) =
        ([0x77],
          { s with
            currentDownloadMemoryAddress := none
            currentBlockSequenceCounter := 0
            downloadBuffer := []
            transferInProgress := false }) := by
    intro h
    unfold handleRequestTransferExitRequest
    rw [if_neg (by simp [h])]
  refine ⟨fun h => ⟨hf h, ?_⟩, fun h => ⟨ht h, ?_⟩⟩
  · intro tCheck tUpdate
    rw [handleRequest_0x37, updateSessionTimeout_checkSessionTimeout,
      handleRequestTransferExitRequest_frame, hf h]
  · intro tCheck tUpdate
    rw [handleRequest_0x37, updateSessionTimeout_checkSessionTimeout,
      handleRequestTransferExitRequest_frame, ht h]

/-- C7 at a concrete input: a transfer in progress with two buffered bytes is
ended by the request `37`. -/
theorem C7_request_transfer_exit_witness :
    handleRequestTransferExitRequest
        { UDSServer.init 0 ⟨0, 0⟩ with
          currentSession := DiagnosticSession.PROGRAMMING
          sessionTimeout := 10
          testerPresent := true
          currentDownloadMemoryAddress := some ⟨0x1000, 4⟩
          currentBlockSequenceCounter := 1
          downloadBuffer := [0xDE, 0xAD]
          transferInProgress := true } [0x37] =
      ([0x77],
        { UDSServer.init 0 ⟨0, 0⟩ with
          currentSession := DiagnosticSession.PROGRAMMING
          sessionTimeout := 10
          testerPresent := true }) :=
  ((C7_request_transfer_exit
    { UDSServer.init 0 ⟨0, 0⟩ with
      currentSession := DiagnosticSession.PROGRAMMING
      sessionTimeout := 10
      testerPresent := true
      currentDownloadMemoryAddress := some ⟨0x1000, 4⟩
      currentBlockSequenceCounter := 1
      downloadBuffer := [0xDE, 0xAD]
      transferInProgress := true } []).2 rfl).1

/-- Without a timeout the timeout check leaves the state as it is. -/
theorem checkSessionTimeout_of_not_elapsed (s : UDSServer) (t : Int)
    (h : ¬ Int.tdiv (t - s.lastActivityTime) steadyClockTicksPerSecond > s.sessionTimeout) :
    checkSessionTimeout s t = s := by
  unfold checkSessionTimeout
  dsimp only
  rw [if_neg h]

/-- C8, as the code has it: from a reachable state in the PROGRAMMING session
in which no transfer is in progress, and without a session timeout at either
request, a RequestDownload of at least eleven bytes succeeds (`74 04 00`) and a
RequestTransferExit sent next is answered `77` and leaves the state equal to
the state before the RequestDownload except for the last-activity time. -/
theorem C8_download_then_exit (s : UDSServer) (tail rest : List Nat) (t1 t2 t3 t4 : Int)
    (hr : Reachable s) (hs : s.currentSession = DiagnosticSession.PROGRAMMING)
    (htip : s.transferInProgress = false) (hlen : 10 ≤ tail.length)
    (hno1 : ¬ Int.tdiv (t1 - s.lastActivityTime) steadyClockTicksPerSecond > s.sessionTimeout)
    (hno2 : ¬ Int.tdiv (t3 - t2) steadyClockTicksPerSecond > s.sessionTimeout) :
    (handleRequest s t1 t2 (0x34 :: tail)).1 = [0x74, 0x04, 0x00] ∧
    handleRequest (handleRequest s t1 t2 (0x34 :: tail)).2 t3 t4 (0x37 :: rest) =
      ([0x77], { s with lastActivityTime := t4 }) := by
  obtain ⟨hnone, hcnt, hbuf⟩ := (reachable_downloadInv s hr).2 htip
  rw [handleRequest_0x34, checkSessionTimeout_of_not_elapsed s t1 hno1]
  obtain ⟨m, -, hd⟩ := handleRequestDownloadRequest_ok (updateSessionTimeout s t2) (0x34 :: tail)
    hs (by simp; omega)
  rw [hd]
  refine ⟨rfl, ?_⟩
  dsimp only
  rw [handleRequest_0x37, checkSessionTimeout_of_not_elapsed _ t3 hno2]
  unfold handleRequestTransferExitRequest updateSessionTimeout
  dsimp only
  rw [if_neg (by simp)]
  cases s
  simp_all

/-- C8 at a concrete input: the state reached by `10 02`, then RequestDownload
and RequestTransferExit four and nine seconds later. -/
theorem C8_download_then_exit_witness :
    handleRequest
        (handleRequest (handleRequest (UDSServer.init 0 ⟨0, 0⟩) 0 0 [0x10, 0x02]).2
          4000000000 4000000000
          [0x34, 0x00, 0x44, 0x00, 0x00, 0x10, 0x00, 0x00, 0x00, 0x00, 0x04]).2
        9000000000 9000000000 [0x37] =
      ([0x77],
        { (handleRequest (UDSServer.init 0 ⟨0, 0⟩) 0 0 [0x10, 0x02]).2 with
          lastActivityTime := 9000000000 }) :=
  (C8_download_then_exit (handleRequest (UDSServer.init 0 ⟨0, 0⟩) 0 0 [0x10, 0x02]).2
    [0x00, 0x44, 0x00, 0x00, 0x10, 0x00, 0x00, 0x00, 0x00, 0x04] []
    4000000000 4000000000 9000000000 9000000000
    (Reachable.step _ 0 0 _ (Reachable.init 0 ⟨0, 0⟩)) rfl rfl (by decide) (by decide)
    (by decide)).2

/-- C8 as stated fails: from the reachable PROGRAMMING state in which a
download of four bytes has received the block `36 01 AA`, RequestDownload
followed by RequestTransferExit (all clock readings equal, so no timeout)
ends in a state without context or buffered byte, which is not the state
before the RequestDownload. -/
theorem C8_not_identical_when_transfer_in_progress :
    ¬ ∀ (s : UDSServer) (tail : List Nat) (t1 t2 t3 t4 : Int),
      Reachable s → s.currentSession = DiagnosticSession.PROGRAMMING → 10 ≤ tail.length →
      ¬ Int.tdiv (t1 - s.lastActivityTime) steadyClockTicksPerSecond > s.sessionTimeout →
      ¬ Int.tdiv (t3 - t2) steadyClockTicksPerSecond > s.sessionTimeout →
      (handleRequest s t1 t2 (0x34 :: tail)).1 = [0x74, 0x04, 0x00] ∧
      handleRequest (handleRequest s t1 t2 (0x34 :: tail)).2 t3 t4 [0x37] =
        ([0x77], { s with lastActivityTime := t4 }) := by
  intro h
  have hr : Reachable
      (handleRequest
        (handleRequest (handleRequest (UDSServer.init 0 ⟨0, 0⟩) 0 0 [0x10, 0x02]).2 0 0
          [0x34, 0x00, 0x44, 0x00, 0x00, 0x10, 0x00, 0x00, 0x00, 0x00, 0x04]).2 0 0
        [0x36, 0x01, 0xAA]).2 :=
    Reachable.step _ 0 0 _ (Reachable.step _ 0 0 _ (Reachable.step _ 0 0 _ (Reachable.init 0 ⟨0, 0⟩)))
  exact absurd
    (h _ [0x00, 0x44, 0x00, 0x00, 0x10, 0x00, 0x00, 0x00, 0x00, 0x04] 0 0 0 0 hr (by decide)
      (by decide) (by decide) (by decide)).2
    (by decide)

/-! ### Sequences of TransferData requests -/

/-- The two outcomes of a TransferData request: rejected with the state
unchanged, or accepted, in which case the counter byte is the successor of the
stored counter and afterwards either the stored counter is that byte or the
download context is gone. -/
theorem handleTransferDataRequest_cases (s : UDSServer) (request : List Nat) :
    ((handleTransferDataRequest s request).1.head? = some 0x7F ∧
      (handleTransferDataRequest s request).2 = s) ∨
    ((handleTransferDataRequest s request).1.head? = some 0x76 ∧
      request.getD 1 0 = (s.currentBlockSequenceCounter + 1) % 256 ∧
      ((handleTransferDataRequest s request).2.currentBlockSequenceCounter = request.getD 1 0 ∨
        (handleTransferDataRequest s request).2.currentDownloadMemoryAddress = none)) := by
  unfold handleTransferDataRequest
  dsimp only
  repeat' split
  · exact Or.inl ⟨rfl, rfl⟩
  · exact Or.inl ⟨rfl, rfl⟩
  · exact Or.inl ⟨rfl, rfl⟩
  · exact Or.inl ⟨rfl, rfl⟩
  · rename_i hc _
    rw [counter_succ_mod] at hc
    exact Or.inr ⟨rfl, not_not.mp hc, Or.inr rfl⟩
  · rename_i hc _
    rw [counter_succ_mod] at hc
    exact Or.inr ⟨rfl, not_not.mp hc, Or.inl rfl⟩

/-- The same two outcomes for a TransferData request sent through
`handleRequest`: the download fields are as the handler leaves them. -/
theorem handleRequest_transferData_cases (s : UDSServer) (tCheck tUpdate : Int)
    (rest : List Nat) :
    ((handleRequest s tCheck tUpdate (0x36 :: rest)).1.head? = some 0x7F ∧
      (handleRequest s tCheck tUpdate (0x36 :: rest)).2.currentBlockSequenceCounter =
        s.currentBlockSequenceCounter ∧
      (handleRequest s tCheck tUpdate (0x36 :: rest)).2.currentDownloadMemoryAddress =
        s.currentDownloadMemoryAddress) ∨
    ((handleRequest s tCheck tUpdate (0x36 :: rest)).1.head? = some 0x76 ∧
      rest.getD 0 0 = (s.currentBlockSequenceCounter + 1) % 256 ∧
      s.currentDownloadMemoryAddress ≠ none ∧
      ((handleRequest s tCheck tUpdate (0x36 :: rest)).2.currentBlockSequenceCounter =
          rest.getD 0 0 ∨
        (handleRequest s tCheck tUpdate (0x36 :: rest)).2.currentDownloadMemoryAddress = none)) := by
  rw [handleRequest_0x36, updateSessionTimeout_checkSessionTimeout,
    handleTransferDataRequest_frame]
  dsimp only
  rcases handleTransferDataRequest_cases s (0x36 :: rest) with ⟨h1, h2⟩ | ⟨h1, h2, h3⟩
  · left
    rw [h2]
    exact ⟨h1, rfl, rfl⟩
  · right
    refine ⟨h1, by simpa using h2, ?_, by simpa using h3⟩
    intro hnone
    unfold handleTransferDataRequest at h1
    rw [hnone] at h1
    dsimp only at h1
    split at h1 <;> simp at h1

/-- Once the download context is gone, no TransferData request of a sequence is
accepted. -/
theorem acceptedCounters_of_no_context (blocks : List (Int × Int × List Nat)) :
    ∀ s : UDSServer, s.currentDownloadMemoryAddress = none →
      (∀ b ∈ blocks, b.2.2.head? = some 0x36) →
      acceptedCounters (runRequests s blocks).1 = [] := by
  induction blocks with
  | nil => intro s _ _; rfl
  | cons b blocks ih =>
    intro s hctx hall
    obtain ⟨tCheck, tUpdate, request⟩ := b
    have hreq : request.head? = some 0x36 := hall _ (List.mem_cons_self _ _)
    have hrest : ∀ b ∈ blocks, b.2.2.head? = some 0x36 :=
      fun b hb => hall b (List.mem_cons_of_mem _ hb)
    cases request with
    | nil => simp at hreq
    | cons S rest =>
      simp only [List.head?_cons, Option.some.injEq] at hreq
      subst hreq
      rcases handleRequest_transferData_cases s tCheck tUpdate rest with
        ⟨h1, _, h3⟩ | ⟨_, _, h3, _⟩
      · simp only [runRequests, acceptedCounters, List.filterMap_cons, h1]
        simp only [Option.some.injEq, Nat.reduceEqDiff, if_false]
        exact ih _ (h3.trans hctx) hrest
      · exact absurd hctx h3

/-- The accepted blocks of a sequence of TransferData requests, started in a
state whose stored counter is `k mod 256`, carry the counters
`(k + 1) mod 256, (k + 2) mod 256, ...`. -/
theorem acceptedCounters_from (blocks : List (Int × Int × List Nat)) :
    ∀ (s : UDSServer) (k : Nat), s.currentBlockSequenceCounter = k % 256 →
      (∀ b ∈ blocks, b.2.2.head? = some 0x36) →
      acceptedCounters (runRequests s blocks).1 =
        (List.range (acceptedCounters (runRequests s blocks).1).length).map
          fun i => (k + 1 + i) % 256 := by
  induction blocks with
  | nil => intro s k _ _; rfl
  | cons b blocks ih =>
    intro s k hk hall
    obtain ⟨tCheck, tUpdate, request⟩ := b
    have hreq : request.head? = some 0x36 := hall _ (List.mem_cons_self _ _)
    have hrest : ∀ b ∈ blocks, b.2.2.head? = some 0x36 :=
      fun b hb => hall b (List.mem_cons_of_mem _ hb)
    cases request with
    | nil => simp at hreq
    | cons S rest =>
      simp only [List.head?_cons, Option.some.injEq] at hreq
      subst hreq
      rcases handleRequest_transferData_cases s tCheck tUpdate rest with
        ⟨h1, h2, _⟩ | ⟨h1, h2, _, h4⟩
      · have hacc : acceptedCounters (runRequests s ((tCheck, tUpdate, 0x36 :: rest) :: blocks)).1
            = acceptedCounters
              (runRequests (handleRequest s tCheck tUpdate (0x36 :: rest)).2 blocks).1 := by
          simp only [runRequests, acceptedCounters, List.filterMap_cons, h1]
          simp only [Option.some.injEq, Nat.reduceEqDiff, if_false]
        rw [hacc]
        exact ih _ k (h2.trans hk) hrest
      · have hc : rest.getD 0 0 = (k + 1) % 256 := by
          rw [h2, hk]; omega
        have hacc : acceptedCounters (runRequests s ((tCheck, tUpdate, 0x36 :: rest) :: blocks)).1
            = (k + 1) % 256 :: acceptedCounters
              (runRequests (handleRequest s tCheck tUpdate (0x36 :: rest)).2 blocks).1 := by
          simp only [runRequests, acceptedCounters, List.filterMap_cons, h1, if_true,
            List.getD_cons_succ, hc]
        rw [hacc]
        rcases h4 with h4 | h4
        · have := ih _ (k + 1) (h4.trans hc) hrest
          rw [List.length_cons, List.range_succ_eq_map, List.map_cons, List.map_map]
          refine congrArg₂ _ rfl ?_
          rw [this]
          simp only [List.length_map, List.length_range]
          apply List.map_congr_left
          intro i _
          simp only [Function.comp, Nat.succ_eq_add_one]
          congr 1
          omega
        · rw [acceptedCounters_of_no_context blocks _ h4 hrest]
          rfl

/-- A response with first byte `a` or 0x7F, where `a` is not 0x74, is not the
positive RequestDownload response. -/
theorem headIn_ne_download {l : List Nat} {a : Nat} (h : HeadIn l a 0x7F) (ha : a ≠ 0x74) :
    l ≠ [0x74, 0x04, 0x00] := by
  obtain ⟨r0, rs, hl, hr⟩ := h
  intro hl2
  rw [hl] at hl2
  have h0 : r0 = 0x74 := (List.cons.inj hl2).1
  rcases hr with hr | hr
  · exact ha (hr.symm.trans h0)
  · rw [hr] at h0
    exact absurd h0 (by decide)

/-- A request answered `74 04 00` by `handleRequest` was a successful
RequestDownload: afterwards the counter is 0, the buffer is empty, a transfer
is in progress and a download context is present. -/
theorem handleRequest_download_positive (s : UDSServer) (tCheck tUpdate : Int)
    (request : List Nat)
    (hok : (handleRequest s tCheck tUpdate request).1 = [0x74, 0x04, 0x00]) :
    (handleRequest s tCheck tUpdate request).2.currentBlockSequenceCounter = 0 ∧
    (handleRequest s tCheck tUpdate request).2.downloadBuffer = [] ∧
    (handleRequest s tCheck tUpdate request).2.transferInProgress = true ∧
    (handleRequest s tCheck tUpdate request).2.currentDownloadMemoryAddress ≠ none := by
  cases request with
  | nil =>
    rw [handleRequest_empty] at hok
    simp at hok
  | cons S rest =>
    by_cases hS : services S = none
    · rw [handleRequest_unknown _ _ _ _ _ hS] at hok
      simp at hok
    · unfold services at hS
      split_ifs at hS with h1 h2 h3 h4 h5 h6 h7
      · subst h1
        exact absurd hok
          (headIn_ne_download (handleDiagnosticSessionControlRequest_head _ _) (by decide))
      · subst h2
        exact absurd hok (headIn_ne_download (handleECUResetRequest_head _ _) (by decide))
      · subst h3
        exact absurd hok (headIn_ne_download (handleTesterPresentRequest_head _ _) (by decide))
      · subst h4
        rw [handleRequest_0x34] at hok ⊢
        unfold handleRequestDownloadRequest at hok ⊢
        split at hok
        · simp at hok
        · split at hok
          · simp at hok
          · split at hok
            · simp at hok
            · rename_i h3 _ _ heq hsess
              rw [if_neg h3]
              simp only [heq, if_neg hsess]
              simp
      · subst h5
        exact absurd hok (headIn_ne_download (handleTransferDataRequest_head _ _) (by decide))
      · subst h6
        rw [handleRequest_0x37] at hok
        exact absurd hok
          (headIn_ne_download (handleRequestTransferExitRequest_head _ (0x37 :: rest))
            (by decide))
      · subst h7
        exact absurd hok (headIn_ne_download (handleRoutineControlRequest_head _ _) (by decide))
      · exact absurd rfl hS

/-- C9: after a successful RequestDownload (response `74 04 00`), for every
sequence of TransferData requests sent through `handleRequest` with arbitrary
clock readings, the counter bytes of the positively answered blocks are, in
order, 1, 2, ..., 255, 0, 1, ...: the accepted block number `k + 1` carries
the counter `(k + 1) mod 256`. -/
theorem C9_accepted_counters_in_sequence (s : UDSServer) (tCheck tUpdate : Int)
    (download : List Nat) (blocks : List (Int × Int × List Nat))
    (hok : (handleRequest s tCheck tUpdate download).1 = [0x74, 0x04, 0x00])
    (hblocks : ∀ b ∈ blocks, b.2.2.head? = some 0x36) :
    acceptedCounters (runRequests (handleRequest s tCheck tUpdate download).2 blocks).1 =
      (List.range
        (acceptedCounters
          (runRequests (handleRequest s tCheck tUpdate download).2 blocks).1).length).map
        fun k => (k + 1) % 256 := by
  have h0 := (handleRequest_download_positive s tCheck tUpdate download hok).1
  have h := acceptedCounters_from blocks (handleRequest s tCheck tUpdate download).2 0 h0 hblocks
  have hf : (fun i => (0 + 1 + i) % 256) = fun k => (k + 1) % 256 := by
    funext i
    rw [Nat.zero_add, Nat.add_comm]
  rw [hf] at h
  exact h

/-- C9 at a concrete input: after `10 02` and a RequestDownload of 1000 bytes,
the blocks with counters 1, 3, 2, 2, 3 are sent; those with counters 1, 2, 3
are accepted, in this order. -/
theorem C9_accepted_counters_in_sequence_witness :
    acceptedCounters
        (runRequests
          (handleRequest (handleRequest (UDSServer.init 0 ⟨0, 0⟩) 0 0 [0x10, 0x02]).2 0 0
            [0x34, 0x00, 0x44, 0x00, 0x00, 0x10, 0x00, 0x00, 0x00, 0x03, 0xE8]).2
          [(0, 0, [0x36, 0x01, 0xAA]), (0, 0, [0x36, 0x03, 0xBB]), (0, 0, [0x36, 0x02, 0xCC]),
            (0, 0, [0x36, 0x02, 0xDD]), (0, 0, [0x36, 0x03, 0xEE])]).1 = [1, 2, 3] :=
  (C9_accepted_counters_in_sequence (handleRequest (UDSServer.init 0 ⟨0, 0⟩) 0 0 [0x10, 0x02]).2
    0 0 [0x34, 0x00, 0x44, 0x00, 0x00, 0x10, 0x00, 0x00, 0x00, 0x03, 0xE8]
    [(0, 0, [0x36, 0x01, 0xAA]), (0, 0, [0x36, 0x03, 0xBB]), (0, 0, [0x36, 0x02, 0xCC]),
      (0, 0, [0x36, 0x02, 0xDD]), (0, 0, [0x36, 0x03, 0xEE])]
    (by decide) (by decide)).trans (by decide)

/-! ### Routine 0xFF03, CheckMemory -/

/-- For four bytes the shift-and-or expression of the source is their
big-endian reading. -/
theorem shiftOr32_bigEndian (b0 b1 b2 b3 : Nat) (h0 : b0 < 256) (h1 : b1 < 256)
    (h2 : b2 < 256) (h3 : b3 < 256) :
    shiftOr32 b0 b1 b2 b3 = b0 * 2 ^ 24 + b1 * 2 ^ 16 + b2 * 2 ^ 8 + b3 := by
  unfold shiftOr32
  simp only [Nat.shiftLeft_eq]
  have e1 : b0 * 2 ^ 24 ||| b1 * 2 ^ 16 = 2 ^ 24 * b0 + b1 * 2 ^ 16 := by
    rw [Nat.mul_add_lt_is_or (by omega) b0, Nat.mul_comm]
  have e2 : (2 ^ 24 * b0 + b1 * 2 ^ 16) ||| b2 * 2 ^ 8 =
      2 ^ 16 * (2 ^ 8 * b0 + b1) + b2 * 2 ^ 8 := by
    rw [Nat.mul_add_lt_is_or (by omega) (2 ^ 8 * b0 + b1)]
    congr 1
    omega
  have e3 : (2 ^ 16 * (2 ^ 8 * b0 + b1) + b2 * 2 ^ 8) ||| b3 =
      2 ^ 8 * (2 ^ 8 * (2 ^ 8 * b0 + b1) + b2) + b3 := by
    rw [Nat.mul_add_lt_is_or (by omega) (2 ^ 8 * (2 ^ 8 * b0 + b1) + b2)]
    congr 1
    omega
  rw [e1, e2, e3]
  omega

/-- RoutineControl START of routine 0xFF03 in the PROGRAMMING session, with
address bytes `a0..a3` and size bytes `z0..z3`: the request is accepted, with
four zero checksum bytes, exactly when the sum of address and size reduced
modulo `2 ^ 32` is at most 0x00100000; the state is unchanged. -/
theorem handleRoutineControlRequest_checkMemory_start (s : UDSServer)
    (a0 a1 a2 a3 z0 z1 z2 z3 : Nat) (rest : List Nat)
    (hs : s.currentSession = DiagnosticSession.PROGRAMMING)
    (ha0 : a0 < 256) (ha1 : a1 < 256) (ha2 : a2 < 256) (ha3 : a3 < 256)
    (hz0 : z0 < 256) (hz1 : z1 < 256) (hz2 : z2 < 256) (hz3 : z3 < 256) :
    handleRoutineControlRequest s
        (0x31 :: 0x01 :: 0xFF :: 0x03 :: a0 :: a1 :: a2 :: a3 :: z0 :: z1 :: z2 :: z3 :: rest) =
      (if (a0 * 2 ^ 24 + a1 * 2 ^ 16 + a2 * 2 ^ 8 + a3 +
            (z0 * 2 ^ 24 + z1 * 2 ^ 16 + z2 * 2 ^ 8 + z3)) % 2 ^ 32 ≤ 0x00100000 then
          [0x71, 0x01, 0xFF, 0x03, 0x00, 0x00, 0x00, 0x00]
        else [0x7F, 0x31, 0x31], s) := by
  have hlen : ¬ (0x31 :: 0x01 :: 0xFF :: 0x03 :: a0 :: a1 :: a2 :: a3 :: z0 :: z1 :: z2 :: z3
      :: rest).length < 4 := by simp
  have hlen8 : ¬ (a0 :: a1 :: a2 :: a3 :: z0 :: z1 :: z2 :: z3 :: rest).length < 8 := by simp
  unfold handleRoutineControlRequest
  rw [if_neg hlen]
  simp only [List.getD_cons_succ, List.getD_cons_zero, List.drop_succ_cons, List.drop_zero]
  rw [if_neg (not_not.mpr hs), if_neg (by decide), if_neg (by decide), if_neg (by decide),
    if_pos (by decide)]
  unfold handleCheckMemoryRoutine
  rw [if_pos (by decide), if_neg hlen8]
  simp only [List.getD_cons_succ, List.getD_cons_zero]
  rw [shiftOr32_bigEndian a0 a1 a2 a3 ha0 ha1 ha2 ha3,
    shiftOr32_bigEndian z0 z1 z2 z3 hz0 hz1 hz2 hz3]
  unfold checkMemoryRange calculateChecksum
  simp
  split_ifs <;> first | rfl | (exfalso; omega)

/-- C10, the code at the failing input: in the PROGRAMMING session reached by
`10 02`, CheckMemory START with address 0xFFFFFFFF and size 0x00000001 is
accepted (`71 01 FF 03 00 00 00 00`) although address + size = 0x100000000
exceeds 0x00100000 as a sum of natural numbers: `checkMemoryRange` compares
the 32-bit sum, which has wrapped to 0.  The boundary request address 0, size
0x00100000 is accepted, and address 0, size 0x00100001 is rejected with
`7F 31 31`. -/
theorem C10_check_memory_sum_wraps :
    (handleRequest (handleRequest (UDSServer.init 0 ⟨0, 0⟩) 0 0 [0x10, 0x02]).2 0 0
      [0x31, 0x01, 0xFF, 0x03, 0xFF, 0xFF, 0xFF, 0xFF, 0x00, 0x00, 0x00, 0x01]).1 =
      [0x71, 0x01, 0xFF, 0x03, 0x00, 0x00, 0x00, 0x00] ∧
    checkMemoryRange 0xFFFFFFFF 0x00000001 = true ∧
    0xFFFFFFFF + 0x00000001 > 0x00100000 ∧
    (handleRequest (handleRequest (UDSServer.init 0 ⟨0, 0⟩) 0 0 [0x10, 0x02]).2 0 0
      [0x31, 0x01, 0xFF, 0x03, 0x00, 0x00, 0x00, 0x00, 0x00, 0x10, 0x00, 0x00]).1 =
      [0x71, 0x01, 0xFF, 0x03, 0x00, 0x00, 0x00, 0x00] ∧
    (handleRequest (handleRequest (UDSServer.init 0 ⟨0, 0⟩) 0 0 [0x10, 0x02]).2 0 0
      [0x31, 0x01, 0xFF, 0x03, 0x00, 0x00, 0x00, 0x00, 0x00, 0x10, 0x00, 0x01]).1 =
      [0x7F, 0x31, 0x31] := by
  refine ⟨by decide, by decide, by decide, by decide, by decide⟩


/-! ### Routine 0xFF03: the checksum bytes -/

/-- C11, the code at the failing input: in the PROGRAMMING session reached by
`10 02`, CheckMemory START with address 0 and size 1 is answered
`71 01 FF 03 00 00 00 00`.  The checksum described by the claim, 32 CRC steps
from `0 XOR 1`, is 0xB8BC6765, which is what the const overload
`calculateChecksum(...) const` returns (`B8 BC 67 65`); the non-const member
`handleCheckMemoryRoutine` calls the non-const overload, which returns four
zero bytes. -/
theorem C11_checksum_bytes_are_zero :
    (handleRequest (handleRequest (UDSServer.init 0 ⟨0, 0⟩) 0 0 [0x10, 0x02]).2 0 0
      [0x31, 0x01, 0xFF, 0x03, 0x00, 0x00, 0x00, 0x00, 0x00, 0x00, 0x00, 0x01]).1 =
      [0x71, 0x01, 0xFF, 0x03, 0x00, 0x00, 0x00, 0x00] ∧
    Nat.iterate crcStep 32 (0 ^^^ 1) = 0xB8BC6765 ∧
    calculateChecksumConst 0 1 = [0xB8, 0xBC, 0x67, 0x65] ∧
    calculateChecksum 0 1 = [0x00, 0x00, 0x00, 0x00] := by
  refine ⟨by decide, by decide, by decide, by decide⟩

end UDS

namespace DoIP

open UDS

/-! ## The DoIP framing layer -/

/-! ### Bytes and 16-bit values -/

/-- For two bytes the expression `(hi << 8) | lo`, as a `uint16_t`, is
`hi * 256 + lo`. -/
theorem shiftOr16_bytes (hi lo : Nat) (hhi : hi < 256) (hlo : lo < 256) :
    ((hi <<< 8) ||| lo) % 2 ^ 16 = hi * 256 + lo := by
  rw [Nat.shiftLeft_eq, Nat.mul_comm hi, ← Nat.mul_add_lt_is_or (by omega) hi]
  omega

/-- Masking with 0xFF is reduction modulo 256. -/
theorem and_0xFF (x : Nat) : x &&& 0xFF = x % 256 :=
  Nat.and_pow_two_sub_one_eq_mod x 8

/-- Shifting right distributes over bitwise or. -/
theorem shiftRight_or (a b n : Nat) : (a ||| b) >>> n = (a >>> n) ||| (b >>> n) := by
  apply Nat.eq_of_testBit_eq
  intro i
  simp

/-- The high byte of `p | 0x8000`, for a 16-bit `p` with high byte `hi`, is
`hi | 0x80`, which is the third byte of a negative response. -/
theorem negative_type_high_byte (hi lo : Nat) (hlo : lo < 256) :
    (((hi * 256 + lo) >>> 8) ||| 0x80) % 256 = ((hi * 256 + lo) ||| 0x8000) / 256 % 256 := by
  have h1 : (hi * 256 + lo) >>> 8 = hi := by
    rw [Nat.shiftRight_eq_div_pow]
    omega
  have h2 : ((hi * 256 + lo) ||| 0x8000) / 256 = hi ||| 0x80 := by
    have := shiftRight_or (hi * 256 + lo) 0x8000 8
    rw [h1, Nat.shiftRight_eq_div_pow] at this
    exact this
  rw [h1, h2]

/-- The bytes that the source pushes for a 32-bit value are its big-endian
encoding. -/
theorem shift_mask_bigEndian32 (n : Nat) :
    [(n >>> 24) &&& 0xFF, (n >>> 16) &&& 0xFF, (n >>> 8) &&& 0xFF, n &&& 0xFF] =
      bigEndian32 n := by
  simp only [and_0xFF, Nat.shiftRight_eq_div_pow, bigEndian32]

/-- The two bytes that the source pushes for a 16-bit address built from the
bytes `hi` and `lo` are `hi` and `lo`. -/
theorem shift_mask_address (hi lo : Nat) (hhi : hi < 256) (hlo : lo < 256) :
    ((((hi <<< 8) ||| lo) % 2 ^ 16) >>> 8) &&& 0xFF = hi ∧
      (((hi <<< 8) ||| lo) % 2 ^ 16) &&& 0xFF = lo := by
  rw [shiftOr16_bytes hi lo hhi hlo, and_0xFF, and_0xFF, Nat.shiftRight_eq_div_pow]
  constructor <;> omega

/-! ### What `processDoIPMessage` does, by payload type -/

/-- The dispatch of `processDoIPMessage` on a memory block that holds at least
the eight header bytes. -/
theorem processDoIPMessage_header (srv : DoIPServer) (tCheck tUpdate : Int)
    (v0 v1 t0 t1 l0 l1 l2 l3 : Nat) (rest : List Nat) (length : Nat) (hlen : 8 ≤ length) :
    processDoIPMessage srv tCheck tUpdate (v0 :: v1 :: t0 :: t1 :: l0 :: l1 :: l2 :: l3 :: rest)
        length =
      if ((t0 <<< 8) ||| t1) % 2 ^ 16 = 0x0001 then
        some ([sendVehicleIdentificationResponse srv], srv)
      else if ((t0 <<< 8) ||| t1) % 2 ^ 16 = 0x0005 then
        (handleRoutingActivationRequest srv rest (shiftOr32 l0 l1 l2 l3)).bind
          fun r => some ([r.1], r.2)
      else if ((t0 <<< 8) ||| t1) % 2 ^ 16 = 0x8001 then
        processDiagnosticMessage srv tCheck tUpdate
          (v0 :: v1 :: t0 :: t1 :: l0 :: l1 :: l2 :: l3 :: rest)
          (((t0 <<< 8) ||| t1) % 2 ^ 16) (shiftOr32 l0 l1 l2 l3)
      else some ([sendNegativeResponse (((t0 <<< 8) ||| t1) % 2 ^ 16) 0x00], srv) := by
  unfold processDoIPMessage
  rw [if_neg (by omega)]
  simp only [List.getElem?_cons_zero, List.getElem?_cons_succ, Option.bind_eq_bind,
    Option.some_bind, List.drop_succ_cons, List.drop_zero]

/-- A frame shorter than eight bytes is dropped: nothing is sent and the state
is unchanged. -/
theorem processDoIPMessage_short (srv : DoIPServer) (tCheck tUpdate : Int) (data : List Nat)
    (length : Nat) (hlen : length < 8) :
    processDoIPMessage srv tCheck tUpdate data length = some ([], srv) := by
  unfold processDoIPMessage
  rw [if_pos hlen]

end DoIP

namespace UDS

/-- Every handler response has at most eight bytes. -/
theorem handler_response_length (S : Nat)
    (handler : UDSServer → List Nat → List Nat × UDSServer) (h : services S = some handler)
    (s : UDSServer) (request : List Nat) : (handler s request).1.length ≤ 8 := by
  unfold services at h
  split_ifs at h
  all_goals
    try cases h
  · unfold handleDiagnosticSessionControlRequest
    dsimp only
    repeat' split
    all_goals simp
  · unfold handleECUResetRequest
    dsimp only
    repeat' split
    all_goals simp
  · unfold handleTesterPresentRequest
    repeat' split
    all_goals simp
  · unfold handleRequestDownloadRequest
    repeat' split
    all_goals simp
  · unfold handleTransferDataRequest
    dsimp only
    repeat' split
    all_goals simp
  · unfold handleRequestTransferExitRequest
    repeat' split
    all_goals simp
  · unfold handleRoutineControlRequest
    dsimp only
    repeat' split
    · simp
    · simp
    · unfold handleEraseRoutine
      repeat' split
      all_goals simp
    · unfold handleCheckProgrammingPreConditionsRoutine
      dsimp only
      repeat' split
      all_goals simp
    · unfold handleCheckProgrammingDependenciesRoutine
      dsimp only
      repeat' split
      all_goals simp
    · unfold handleCheckMemoryRoutine
      dsimp only
      repeat' split
      all_goals simp [calculateChecksum]
    · simp

/-- Every response of `handleRequest` has at most eight bytes. -/
theorem handleRequest_response_length (s : UDSServer) (tCheck tUpdate : Int)
    (request : List Nat) : (handleRequest s tCheck tUpdate request).1.length ≤ 8 := by
  cases request with
  | nil => simp [handleRequest_empty]
  | cons S rest =>
    cases hS : services S with
    | none =>
      rw [handleRequest_unknown _ _ _ _ _ hS]
      simp
    | some handler =>
      have : handleRequest s tCheck tUpdate (S :: rest) =
          handler (updateSessionTimeout (checkSessionTimeout s tCheck) tUpdate) (S :: rest) := by
        simp only [handleRequest, hS]
      rw [this]
      exact handler_response_length S handler hS _ _

end UDS

namespace DoIP

open UDS

/-! ### Payload type 0x8001, diagnostic message -/

/-- C12: with routing activated, a frame of type 0x8001 whose header payload
length `L` is at least 4 and whose length is `8 + L`, with source address bytes
`s0 s1`, target address bytes `g0 g1` and UDS bytes `u`, makes
`processDoIPMessage` send exactly the frame
`02 FD 80 01 ++ bigEndian32 (4 + length r) ++ g0 g1 s0 s1 ++ r` with
`r = handleRequest u`, and store the dispatcher state that `handleRequest`
returns.  The length field is the number of bytes after the header, and for
`L = 4` the dispatcher receives the empty request and `r` is `7F 00 11`.  The
memory block may hold any bytes `stale` after the frame. -/
theorem C12_diagnostic_message (srv : DoIPServer) (tCheck tUpdate : Int)
    (v0 v1 l0 l1 l2 l3 s0 s1 g0 g1 : Nat) (u stale : List Nat)
    (hrouting : srv.routingActivated = true)
    (hl0 : l0 < 256) (hl1 : l1 < 256) (hl2 : l2 < 256) (hl3 : l3 < 256)
    (hs0 : s0 < 256) (hs1 : s1 < 256) (hg0 : g0 < 256) (hg1 : g1 < 256)
    (hL : l0 * 2 ^ 24 + l1 * 2 ^ 16 + l2 * 2 ^ 8 + l3 = 4 + u.length) :
    processDoIPMessage srv tCheck tUpdate
        (v0 :: v1 :: 0x80 :: 0x01 :: l0 :: l1 :: l2 :: l3 :: s0 :: s1 :: g0 :: g1 :: (u ++ stale))
        (8 + (4 + u.length)) =
      some
        ([[0x02, 0xFD, 0x80, 0x01] ++
            bigEndian32 (4 + (handleRequest srv.udsServer tCheck tUpdate u).1.length) ++
            [g0, g1, s0, s1] ++ (handleRequest srv.udsServer tCheck tUpdate u).1],
          { srv with udsServer := (handleRequest srv.udsServer tCheck tUpdate u).2 }) ∧
    4 + (handleRequest srv.udsServer tCheck tUpdate u).1.length < 2 ^ 32 ∧
    (u = [] → (handleRequest srv.udsServer tCheck tUpdate u).1 = [0x7F, 0x00, 0x11]) := by
  have hbound := handleRequest_response_length srv.udsServer tCheck tUpdate u
  refine ⟨?_, by omega, fun hu => by rw [hu]; rfl⟩
  rw [processDoIPMessage_header _ _ _ _ _ _ _ _ _ _ _ _ _ (by omega)]
  rw [if_neg (by decide), if_neg (by decide), if_pos (by decide)]
  have hpl : shiftOr32 l0 l1 l2 l3 = 4 + u.length := by
    rw [shiftOr32_bigEndian l0 l1 l2 l3 hl0 hl1 hl2 hl3, hL]
  rw [hpl]
  unfold processDiagnosticMessage
  rw [if_pos hrouting, if_neg (by omega)]
  have hrange : readRange
      (v0 :: v1 :: 0x80 :: 0x01 :: l0 :: l1 :: l2 :: l3 :: s0 :: s1 :: g0 :: g1 :: (u ++ stale))
      12 (8 + (4 + u.length)) = some u := by
    unfold readRange
    rw [if_pos (by simp; omega)]
    have : 8 + (4 + u.length) - 12 = u.length := by omega
    simp [this]
  simp only [List.getElem?_cons_zero, List.getElem?_cons_succ, Option.bind_eq_bind,
    Option.some_bind, hrange]
  have hmod : (4 + (handleRequest srv.udsServer tCheck tUpdate u).1.length) % 2 ^ 32 =
      4 + (handleRequest srv.udsServer tCheck tUpdate u).1.length := Nat.mod_eq_of_lt (by omega)
  obtain ⟨hs_hi, hs_lo⟩ := shift_mask_address s0 s1 hs0 hs1
  obtain ⟨hg_hi, hg_lo⟩ := shift_mask_address g0 g1 hg0 hg1
  rw [hmod, hs_hi, hs_lo, hg_hi, hg_lo]
  have hbe := shift_mask_bigEndian32 (4 + (handleRequest srv.udsServer tCheck tUpdate u).1.length)
  simp only [bigEndian32] at hbe ⊢
  simp only [List.cons.injEq] at hbe
  obtain ⟨e1, e2, e3, e4, -⟩ := hbe
  rw [e1, e2, e3, e4]
  rfl

/-- C12 at a concrete input: the second frame of the spec scenario,
`02 FD 80 01 00 00 00 06 0E 00 00 00 10 02`, after routing activation. -/
theorem C12_diagnostic_message_witness :
    processDoIPMessage { DoIPServer.init 0 ⟨0, 0⟩ with routingActivated := true } 0 0
        [0x02, 0xFD, 0x80, 0x01, 0x00, 0x00, 0x00, 0x06, 0x0E, 0x00, 0x00, 0x00, 0x10, 0x02] 14 =
      some
        ([[0x02, 0xFD, 0x80, 0x01, 0x00, 0x00, 0x00, 0x0A, 0x00, 0x00, 0x0E, 0x00,
            0x50, 0x02, 0x00, 0x32, 0x01, 0xF4]],
          { DoIPServer.init 0 ⟨0, 0⟩ with
            routingActivated := true
            udsServer :=
              { UDSServer.init 0 ⟨0, 0⟩ with
                currentSession := DiagnosticSession.PROGRAMMING, sessionTimeout := 10 } }) :=
  (C12_diagnostic_message { DoIPServer.init 0 ⟨0, 0⟩ with routingActivated := true } 0 0
    0x02 0xFD 0x00 0x00 0x00 0x06 0x0E 0x00 0x00 0x00 [0x10, 0x02] []
    rfl (by decide) (by decide) (by decide) (by decide) (by decide) (by decide) (by decide)
    (by decide) (by decide)).1


/-- C13: for a frame of at least eight bytes with payload type 0x8001, if
routing is not activated `processDoIPMessage` sends exactly
`02 FD 80 01 00 00 00 01 02`, whatever the payload length, and if routing is
activated and the header payload length is below 4 it sends exactly
`02 FD 80 01 00 00 00 01 04`.  In both cases the whole connection state, the
UDS dispatcher state with its last-activity time and the routing flag
included, is unchanged. -/
theorem C13_diagnostic_message_rejected (srv : DoIPServer) (tCheck tUpdate : Int)
    (v0 v1 l0 l1 l2 l3 : Nat) (rest : List Nat) (length : Nat) (hlen : 8 ≤ length)
    (hl0 : l0 < 256) (hl1 : l1 < 256) (hl2 : l2 < 256) (hl3 : l3 < 256) :
    (srv.routingActivated = false →
      processDoIPMessage srv tCheck tUpdate
          (v0 :: v1 :: 0x80 :: 0x01 :: l0 :: l1 :: l2 :: l3 :: rest) length =
        some ([[0x02, 0xFD, 0x80, 0x01, 0x00, 0x00, 0x00, 0x01, 0x02]], srv)) ∧
    (srv.routingActivated = true → l0 * 2 ^ 24 + l1 * 2 ^ 16 + l2 * 2 ^ 8 + l3 < 4 →
      processDoIPMessage srv tCheck tUpdate
          (v0 :: v1 :: 0x80 :: 0x01 :: l0 :: l1 :: l2 :: l3 :: rest) length =
        some ([[0x02, 0xFD, 0x80, 0x01, 0x00, 0x00, 0x00, 0x01, 0x04]], srv)) := by
  rw [processDoIPMessage_header _ _ _ _ _ _ _ _ _ _ _ _ _ hlen]
  rw [if_neg (by decide), if_neg (by decide), if_pos (by decide)]
  unfold processDiagnosticMessage
  constructor
  · intro h
    rw [if_neg (by simp [h])]
    rfl
  · intro h hL
    rw [if_pos h, shiftOr32_bigEndian l0 l1 l2 l3 hl0 hl1 hl2 hl3, if_pos hL]
    rfl

/-- C13 at a concrete input: the spec scenario "diagnostic before routing",
the frame `02 FD 80 01 00 00 00 06 0E 00 00 00 10 02` on a fresh connection. -/
theorem C13_diagnostic_message_rejected_witness :
    processDoIPMessage (DoIPServer.init 0 ⟨0, 0⟩) 0 0
        [0x02, 0xFD, 0x80, 0x01, 0x00, 0x00, 0x00, 0x06, 0x0E, 0x00, 0x00, 0x00, 0x10, 0x02] 14 =
      some ([[0x02, 0xFD, 0x80, 0x01, 0x00, 0x00, 0x00, 0x01, 0x02]], DoIPServer.init 0 ⟨0, 0⟩) :=
  (C13_diagnostic_message_rejected (DoIPServer.init 0 ⟨0, 0⟩) 0 0 0x02 0xFD 0x00 0x00 0x00 0x06
    [0x0E, 0x00, 0x00, 0x00, 0x10, 0x02] 14 (by decide) (by decide) (by decide) (by decide)
    (by decide)).1 rfl

/-! ### Payload type 0x0001, vehicle identification request -/

/-- For a frame of at least eight bytes with payload type 0x0001
`processDoIPMessage` sends the vehicle identification response and leaves the
state unchanged; with a six-byte VIN the response has 35 bytes. -/
theorem processDoIPMessage_vehicleIdentification (srv : DoIPServer) (tCheck tUpdate : Int)
    (v0 v1 l0 l1 l2 l3 : Nat) (rest : List Nat) (length : Nat) (hlen : 8 ≤ length) :
    processDoIPMessage srv tCheck tUpdate
        (v0 :: v1 :: 0x00 :: 0x01 :: l0 :: l1 :: l2 :: l3 :: rest) length =
      some ([sendVehicleIdentificationResponse srv], srv) ∧
    (srv.vin.length = 6 → (sendVehicleIdentificationResponse srv).length = 35) := by
  rw [processDoIPMessage_header _ _ _ _ _ _ _ _ _ _ _ _ _ hlen, if_pos (by decide)]
  refine ⟨rfl, fun h => ?_⟩
  simp [sendVehicleIdentificationResponse, h]

/-- C14, the code at the failing input: the vehicle identification request
`02 FD 00 01 00 00 00 00` is answered with a frame of 35 bytes, not 41: the
header `02 FD 00 04 00 00 00 21` announces a payload of 33 bytes, but only 27
bytes follow it (`01 00 E0 00`, the six VIN bytes and 17 zero bytes). -/
theorem C14_vehicle_identification_is_35_bytes :
    processDoIPMessage (DoIPServer.init 0 ⟨0, 0⟩) 0 0
        [0x02, 0xFD, 0x00, 0x01, 0x00, 0x00, 0x00, 0x00] 8 =
      some
        ([[0x02, 0xFD, 0x00, 0x04, 0x00, 0x00, 0x00, 0x21,
            0x01, 0x00, 0xE0, 0x00, 0x31, 0x32, 0x33, 0x34, 0x35, 0x36,
            0x00, 0x00, 0x00, 0x00, 0x00, 0x00, 0x00, 0x00, 0x00, 0x00, 0x00, 0x00, 0x00, 0x00,
            0x00, 0x00, 0x00]],
          DoIPServer.init 0 ⟨0, 0⟩) ∧
    (sendVehicleIdentificationResponse (DoIPServer.init 0 ⟨0, 0⟩)).length = 35 ∧
    ((sendVehicleIdentificationResponse (DoIPServer.init 0 ⟨0, 0⟩)).drop 8).length = 27 ∧
    (sendVehicleIdentificationResponse (DoIPServer.init 0 ⟨0, 0⟩)).take 8 =
      [0x02, 0xFD, 0x00, 0x04] ++ bigEndian32 33 := by
  refine ⟨by decide, by decide, by decide, by decide⟩

/-! ### Payload type 0x0005, routing activation request -/

/-- C15: for a routing activation request (type 0x0005) in a frame of at least
eight bytes with header payload length `L`: if `L ≥ 7` the routing flag
becomes true and the frame sent is exactly
`02 FD 00 06 00 00 00 09 p0 p1 00 00 10 00 00 00 00`, where `p0 p1` are the
first two payload bytes; if `L < 7` the frame sent is exactly
`02 FD 80 05 00 00 00 01 04` and the state, the routing flag included, is
unchanged.  Nothing else of the state changes in either case. -/
theorem C15_routing_activation (srv : DoIPServer) (tCheck tUpdate : Int)
    (v0 v1 l0 l1 l2 l3 p0 p1 p2 : Nat) (rest short : List Nat) (length : Nat)
    (hlen : 8 ≤ length)
    (hl0 : l0 < 256) (hl1 : l1 < 256) (hl2 : l2 < 256) (hl3 : l3 < 256)
    (hp0 : p0 < 256) (hp1 : p1 < 256) :
    (7 ≤ l0 * 2 ^ 24 + l1 * 2 ^ 16 + l2 * 2 ^ 8 + l3 →
      processDoIPMessage srv tCheck tUpdate
          (v0 :: v1 :: 0x00 :: 0x05 :: l0 :: l1 :: l2 :: l3 :: p0 :: p1 :: p2 :: rest) length =
        some
          ([[0x02, 0xFD, 0x00, 0x06, 0x00, 0x00, 0x00, 0x09, p0, p1,
              0x00, 0x00, 0x10, 0x00, 0x00, 0x00, 0x00]],
            { srv with routingActivated := true })) ∧
    (l0 * 2 ^ 24 + l1 * 2 ^ 16 + l2 * 2 ^ 8 + l3 < 7 →
      processDoIPMessage srv tCheck tUpdate
          (v0 :: v1 :: 0x00 :: 0x05 :: l0 :: l1 :: l2 :: l3 :: short) length =
        some ([[0x02, 0xFD, 0x80, 0x05, 0x00, 0x00, 0x00, 0x01, 0x04]], srv)) := by
  constructor
  · intro hL
    rw [processDoIPMessage_header _ _ _ _ _ _ _ _ _ _ _ _ _ hlen]
    rw [if_neg (by decide), if_pos (by decide)]
    unfold handleRoutingActivationRequest
    rw [shiftOr32_bigEndian l0 l1 l2 l3 hl0 hl1 hl2 hl3, if_neg (by omega)]
    simp only [List.getElem?_cons_zero, List.getElem?_cons_succ, Option.bind_eq_bind,
      Option.some_bind]
    have h1 : ((((p0 <<< 8) ||| p1) % 2 ^ 16) >>> 8) % 256 = p0 := by
      rw [shiftOr16_bytes p0 p1 hp0 hp1, Nat.shiftRight_eq_div_pow]
      omega
    have h2 : ((((p0 <<< 8) ||| p1) % 2 ^ 16) &&& 0xFF) % 256 = p1 := by
      rw [shiftOr16_bytes p0 p1 hp0 hp1, and_0xFF]
      omega
    rw [h1, h2]
  · intro hL
    rw [processDoIPMessage_header _ _ _ _ _ _ _ _ _ _ _ _ _ hlen]
    rw [if_neg (by decide), if_pos (by decide)]
    unfold handleRoutingActivationRequest
    rw [shiftOr32_bigEndian l0 l1 l2 l3 hl0 hl1 hl2 hl3, if_pos hL]
    rfl

/-- C15 at a concrete input: the first frame of the spec scenario,
`02 FD 00 05 00 00 00 07 0E 00 00 00 00 00 00`. -/
theorem C15_routing_activation_witness :
    processDoIPMessage (DoIPServer.init 0 ⟨0, 0⟩) 0 0
        [0x02, 0xFD, 0x00, 0x05, 0x00, 0x00, 0x00, 0x07, 0x0E, 0x00, 0x00, 0x00, 0x00, 0x00,
          0x00] 15 =
      some
        ([[0x02, 0xFD, 0x00, 0x06, 0x00, 0x00, 0x00, 0x09, 0x0E, 0x00,
            0x00, 0x00, 0x10, 0x00, 0x00, 0x00, 0x00]],
          { DoIPServer.init 0 ⟨0, 0⟩ with routingActivated := true }) :=
  (C15_routing_activation (DoIPServer.init 0 ⟨0, 0⟩) 0 0 0x02 0xFD 0x00 0x00 0x00 0x07
    0x0E 0x00 0x00 [0x00, 0x00, 0x00, 0x00] [] 15 (by decide) (by decide) (by decide)
    (by decide) (by decide) (by decide) (by decide)).1 (by decide)

/-! ### Any other payload type -/

/-- C16: for a frame of at least eight bytes whose 16-bit payload type
`p = t0 * 256 + t1` is not 0x0001, 0x0005 or 0x8001, `processDoIPMessage` sends
exactly the nine bytes `02 FD`, high byte of `p | 0x8000`, low byte of `p`,
`00 00 00 01 00`, and the connection state (routing flag and UDS dispatcher
state) is unchanged. -/
theorem C16_unknown_payload_type (srv : DoIPServer) (tCheck tUpdate : Int)
    (v0 v1 t0 t1 l0 l1 l2 l3 : Nat) (rest : List Nat) (length : Nat) (hlen : 8 ≤ length)
    (ht0 : t0 < 256) (ht1 : t1 < 256)
    (h1 : t0 * 256 + t1 ≠ 0x0001) (h5 : t0 * 256 + t1 ≠ 0x0005)
    (h8001 : t0 * 256 + t1 ≠ 0x8001) :
    processDoIPMessage srv tCheck tUpdate
        (v0 :: v1 :: t0 :: t1 :: l0 :: l1 :: l2 :: l3 :: rest) length =
      some
        ([[0x02, 0xFD, ((t0 * 256 + t1) ||| 0x8000) / 256 % 256, (t0 * 256 + t1) % 256,
            0x00, 0x00, 0x00, 0x01, 0x00]],
          srv) := by
  rw [processDoIPMessage_header _ _ _ _ _ _ _ _ _ _ _ _ _ hlen]
  rw [shiftOr16_bytes t0 t1 ht0 ht1, if_neg h1, if_neg h5, if_neg h8001]
  unfold sendNegativeResponse
  rw [negative_type_high_byte t0 t1 ht1, and_0xFF, Nat.mod_mod]

/-- C16 at a concrete input: the payload type 0x1234 is answered with the type
bytes `92 34`. -/
theorem C16_unknown_payload_type_witness :
    processDoIPMessage (DoIPServer.init 0 ⟨0, 0⟩) 0 0
        [0x02, 0xFD, 0x12, 0x34, 0x00, 0x00, 0x00, 0x00] 8 =
      some ([[0x02, 0xFD, 0x92, 0x34, 0x00, 0x00, 0x00, 0x01, 0x00]], DoIPServer.init 0 ⟨0, 0⟩) :=
  C16_unknown_payload_type (DoIPServer.init 0 ⟨0, 0⟩) 0 0 0x02 0xFD 0x12 0x34 0x00 0x00 0x00
    0x00 [] 8 (by decide) (by decide) (by decide) (by decide) (by decide) (by decide)


/-! ### Number of frames sent -/

/-- The frame that `processDiagnosticMessage` sends, when it makes no read
outside the memory block, starts with `02 FD`. -/
theorem processDiagnosticMessage_emits (srv : DoIPServer) (tCheck tUpdate : Int)
    (h0 h1 h2 h3 h4 h5 h6 h7 a0 a1 a2 a3 : Nat) (rest : List Nat) (payloadType payloadLength : Nat)
    (hfit : srv.routingActivated = true → 4 ≤ payloadLength →
      8 + payloadLength ≤ 12 + rest.length) :
    ∃ frame srv1,
      processDiagnosticMessage srv tCheck tUpdate
          (h0 :: h1 :: h2 :: h3 :: h4 :: h5 :: h6 :: h7 :: a0 :: a1 :: a2 :: a3 :: rest)
          payloadType payloadLength = some ([frame], srv1) ∧
        frame.take 2 = [0x02, 0xFD] := by
  unfold processDiagnosticMessage
  by_cases hr : srv.routingActivated = true
  · rw [if_pos hr]
    by_cases hL : payloadLength < 4
    · rw [if_pos hL]
      exact ⟨_, _, rfl, rfl⟩
    · rw [if_neg hL]
      have hle : 8 + payloadLength ≤ 12 + rest.length := hfit hr (by omega)
      have hrange : ∃ u, readRange
          (h0 :: h1 :: h2 :: h3 :: h4 :: h5 :: h6 :: h7 :: a0 :: a1 :: a2 :: a3 :: rest)
          12 (8 + payloadLength) = some u := by
        unfold readRange
        rw [if_pos (by simp; omega)]
        exact ⟨_, rfl⟩
      obtain ⟨u, hu⟩ := hrange
      simp only [List.getElem?_cons_zero, List.getElem?_cons_succ, Option.bind_eq_bind,
        Option.some_bind, hu]
      exact ⟨_, _, rfl, rfl⟩
  · rw [if_neg hr]
    exact ⟨_, _, rfl, rfl⟩

/-- C17: `processDoIPMessage` sends nothing and changes no state for a frame of
fewer than eight bytes.  For a frame of at least eight bytes, in a memory block
of at least twelve bytes, it sends exactly one frame, which starts with
`02 FD`, provided that the read of the UDS bytes stays inside the memory block:
for payload type 0x8001 with routing activated and header payload length
`L ≥ 4` this requires `8 + L` to be at most the size of the block.  When
`8 + L` exceeds the size of the block, the copy of the bytes
`data[12 .. 8 + L)` reads outside the block and the call has no defined
result. -/
theorem C17_frames_sent (srv : DoIPServer) (tCheck tUpdate : Int) (data : List Nat)
    (v0 v1 t0 t1 l0 l1 l2 l3 a0 a1 a2 a3 : Nat) (rest : List Nat) (length : Nat)
    (ht0 : t0 < 256) (ht1 : t1 < 256)
    (hl0 : l0 < 256) (hl1 : l1 < 256) (hl2 : l2 < 256) (hl3 : l3 < 256) :
    (length < 8 → processDoIPMessage srv tCheck tUpdate data length = some ([], srv)) ∧
    (8 ≤ length →
      (t0 = 0x80 → t1 = 0x01 → srv.routingActivated = true →
        4 ≤ l0 * 2 ^ 24 + l1 * 2 ^ 16 + l2 * 2 ^ 8 + l3 →
        8 + (l0 * 2 ^ 24 + l1 * 2 ^ 16 + l2 * 2 ^ 8 + l3) ≤ 12 + rest.length) →
      ∃ frame srv1,
        processDoIPMessage srv tCheck tUpdate
            (v0 :: v1 :: t0 :: t1 :: l0 :: l1 :: l2 :: l3 :: a0 :: a1 :: a2 :: a3 :: rest)
            length = some ([frame], srv1) ∧
          frame.take 2 = [0x02, 0xFD]) ∧
    (8 ≤ length → srv.routingActivated = true →
      4 ≤ l0 * 2 ^ 24 + l1 * 2 ^ 16 + l2 * 2 ^ 8 + l3 →
      12 + rest.length < 8 + (l0 * 2 ^ 24 + l1 * 2 ^ 16 + l2 * 2 ^ 8 + l3) →
      processDoIPMessage srv tCheck tUpdate
          (v0 :: v1 :: 0x80 :: 0x01 :: l0 :: l1 :: l2 :: l3 :: a0 :: a1 :: a2 :: a3 :: rest)
          length = none) := by
  refine ⟨processDoIPMessage_short srv tCheck tUpdate data length, ?_, ?_⟩
  · intro hlen hfit
    rw [processDoIPMessage_header _ _ _ _ _ _ _ _ _ _ _ _ _ hlen,
      shiftOr16_bytes t0 t1 ht0 ht1, shiftOr32_bigEndian l0 l1 l2 l3 hl0 hl1 hl2 hl3]
    by_cases h1 : t0 * 256 + t1 = 0x0001
    · rw [if_pos h1]
      exact ⟨_, _, rfl, rfl⟩
    · rw [if_neg h1]
      by_cases h5 : t0 * 256 + t1 = 0x0005
      · rw [if_pos h5]
        unfold handleRoutingActivationRequest
        by_cases h7 : l0 * 2 ^ 24 + l1 * 2 ^ 16 + l2 * 2 ^ 8 + l3 < 7
        · rw [if_pos h7]
          exact ⟨_, _, rfl, rfl⟩
        · rw [if_neg h7]
          simp only [List.getElem?_cons_zero, List.getElem?_cons_succ, Option.bind_eq_bind,
            Option.some_bind]
          exact ⟨_, _, rfl, rfl⟩
      · rw [if_neg h5]
        by_cases h8 : t0 * 256 + t1 = 0x8001
        · rw [if_pos h8]
          exact processDiagnosticMessage_emits srv tCheck tUpdate _ _ _ _ _ _ _ _ _ _ _ _ _ _ _
            (fun hr hL => hfit (by omega) (by omega) hr hL)
        · rw [if_neg h8]
          exact ⟨_, _, rfl, rfl⟩
  · intro hlen hr hL hover
    rw [processDoIPMessage_header _ _ _ _ _ _ _ _ _ _ _ _ _ hlen]
    rw [if_neg (by decide), if_neg (by decide), if_pos (by decide)]
    unfold processDiagnosticMessage
    rw [if_pos hr, shiftOr32_bigEndian l0 l1 l2 l3 hl0 hl1 hl2 hl3, if_neg (by omega)]
    have hrange : readRange
        (v0 :: v1 :: 0x80 :: 0x01 :: l0 :: l1 :: l2 :: l3 :: a0 :: a1 :: a2 :: a3 :: rest)
        12 (8 + (l0 * 2 ^ 24 + l1 * 2 ^ 16 + l2 * 2 ^ 8 + l3)) = none := by
      unfold readRange
      rw [if_neg (by simp; omega)]
    simp only [List.getElem?_cons_zero, List.getElem?_cons_succ, Option.bind_eq_bind,
      Option.some_bind, hrange, Option.none_bind]

/-- C17 at the failing input: with routing activated, the eight received bytes
`02 FD 80 01 FF FF FF FF` at the start of a receive buffer of `BUFFER_SIZE`
bytes (the rest of the buffer being zero) announce a payload of 0xFFFFFFFF
bytes; the read of the UDS bytes leaves the buffer and no response frame is
defined. -/
theorem C17_frames_sent_witness :
    BUFFER_SIZE = 12 + (List.replicate 65524 0).length ∧
    processDoIPMessage { DoIPServer.init 0 ⟨0, 0⟩ with routingActivated := true } 0 0
        (0x02 :: 0xFD :: 0x80 :: 0x01 :: 0xFF :: 0xFF :: 0xFF :: 0xFF :: 0x00 :: 0x00 :: 0x00
          :: 0x00 :: List.replicate 65524 0) 8 = none :=
  ⟨by rw [List.length_replicate]; decide,
    (C17_frames_sent { DoIPServer.init 0 ⟨0, 0⟩ with routingActivated := true } 0 0 []
      0x02 0xFD 0x80 0x01 0xFF 0xFF 0xFF 0xFF 0x00 0x00 0x00 0x00 (List.replicate 65524 0) 8
      (by decide) (by decide) (by decide) (by decide) (by decide) (by decide)).2.2
      (by decide) rfl (by decide) (by rw [List.length_replicate]; decide)⟩

end DoIP

namespace UDS

/-! ### Service 0x10, DiagnosticSessionControl -/

/-- C18: a DiagnosticSessionControl request `[0x10, sub, ...]` with `sub` one of
0x01, 0x02, 0x03, 0x04 is answered `{0x50, sub, 0x00, 0x32, 0x01, 0xF4}` and
sets session and timeout to DEFAULT/5, PROGRAMMING/10, EXTENDED/7,
SAFETY_SYSTEM/15 respectively, nothing else changing (through `handleRequest`
the last-activity time is set as well).  Any other `sub` is answered
`{0x7F, 0x10, 0x12}` and the one-byte request `{0x7F, 0x10, 0x13}`, and the
handler leaves the state unchanged.  Repeating `10 01` gives the same response
and the same state as sending it once. -/
theorem C18_diagnostic_session_control (s : UDSServer) (sub : Nat) (rest : List Nat) :
    (∀ p ∈ [(0x01, DiagnosticSession.DEFAULT, (5 : Int)),
          (0x02, DiagnosticSession.PROGRAMMING, 10), (0x03, DiagnosticSession.EXTENDED, 7),
          (0x04, DiagnosticSession.SAFETY_SYSTEM, 15)],
      handleDiagnosticSessionControlRequest s (0x10 :: p.1 :: rest) =
        ([0x50, p.1, 0x00, 0x32, 0x01, 0xF4],
          { s with currentSession := p.2.1, sessionTimeout := p.2.2 }) ∧
      ∀ tCheck tUpdate : Int,
        handleRequest s tCheck tUpdate (0x10 :: p.1 :: rest) =
          ([0x50, p.1, 0x00, 0x32, 0x01, 0xF4],
            { s with
              currentSession := p.2.1, sessionTimeout := p.2.2, lastActivityTime := tUpdate })) ∧
    (sub ≠ 0x01 → sub ≠ 0x02 → sub ≠ 0x03 → sub ≠ 0x04 →
      handleDiagnosticSessionControlRequest s (0x10 :: sub :: rest) = ([0x7F, 0x10, 0x12], s) ∧
      ∀ tCheck tUpdate : Int,
        handleRequest s tCheck tUpdate (0x10 :: sub :: rest) =
          ([0x7F, 0x10, 0x12], updateSessionTimeout (checkSessionTimeout s tCheck) tUpdate)) ∧
    handleDiagnosticSessionControlRequest s [0x10] = ([0x7F, 0x10, 0x13], s) ∧
    (∀ tCheck tUpdate : Int,
      handleRequest s tCheck tUpdate [0x10] =
        ([0x7F, 0x10, 0x13], updateSessionTimeout (checkSessionTimeout s tCheck) tUpdate)) ∧
    handleDiagnosticSessionControlRequest
        (handleDiagnosticSessionControlRequest s [0x10, 0x01]).2 [0x10, 0x01] =
      handleDiagnosticSessionControlRequest s [0x10, 0x01] ∧
    (∀ t1 t2 t3 t4 : Int,
      (handleRequest (handleRequest s t1 t2 [0x10, 0x01]).2 t3 t4 [0x10, 0x01]).1 =
        (handleRequest s t1 t2 [0x10, 0x01]).1 ∧
      (handleRequest s t1 t2 [0x10, 0x01]).2.currentSession = DiagnosticSession.DEFAULT ∧
      (handleRequest (handleRequest s t1 t2 [0x10, 0x01]).2 t3 t4 [0x10, 0x01]).2.currentSession =
        DiagnosticSession.DEFAULT) := by
  refine ⟨?_, ?_, rfl, fun _ _ => rfl, rfl, fun _ _ _ _ => ⟨rfl, rfl, rfl⟩⟩
  · intro p hp
    simp only [List.mem_cons, List.mem_singleton, List.not_mem_nil, or_false] at hp
    rcases hp with rfl | rfl | rfl | rfl
    · refine ⟨rfl, fun tCheck tUpdate => ?_⟩
      rw [handleRequest_0x10, updateSessionTimeout_checkSessionTimeout]
      rfl
    · refine ⟨rfl, fun tCheck tUpdate => ?_⟩
      rw [handleRequest_0x10, updateSessionTimeout_checkSessionTimeout]
      rfl
    · refine ⟨rfl, fun tCheck tUpdate => ?_⟩
      rw [handleRequest_0x10, updateSessionTimeout_checkSessionTimeout]
      rfl
    · refine ⟨rfl, fun tCheck tUpdate => ?_⟩
      rw [handleRequest_0x10, updateSessionTimeout_checkSessionTimeout]
      rfl
  · intro h1 h2 h3 h4
    have key : ∀ u : UDSServer,
        handleDiagnosticSessionControlRequest u (0x10 :: sub :: rest) = ([0x7F, 0x10, 0x12], u) := by
      intro u
      unfold handleDiagnosticSessionControlRequest
      have hlen : ¬ (0x10 :: sub :: rest).length < 2 := by simp
      rw [if_neg hlen]
      dsimp only
      rw [List.getD_cons_succ, List.getD_cons_zero, if_neg h1, if_neg h2, if_neg h3, if_neg h4]
    refine ⟨key s, fun tCheck tUpdate => ?_⟩
    rw [handleRequest_0x10]
    exact key _

/-- C18 at a concrete input: `10 02` in the initial state. -/
theorem C18_diagnostic_session_control_witness :
    handleDiagnosticSessionControlRequest (UDSServer.init 0 ⟨0, 0⟩) [0x10, 0x02] =
      ([0x50, 0x02, 0x00, 0x32, 0x01, 0xF4],
        { UDSServer.init 0 ⟨0, 0⟩ with
          currentSession := DiagnosticSession.PROGRAMMING, sessionTimeout := 10 }) :=
  ((C18_diagnostic_session_control (UDSServer.init 0 ⟨0, 0⟩) 0x02 []).1
    (0x02, DiagnosticSession.PROGRAMMING, 10) (by simp)).1

/-! ### Service 0x11, ECUReset -/

/-- RoutineControl outside the PROGRAMMING session, with at least four bytes:
NRC 0x22 and no change of state. -/
theorem handleRoutineControlRequest_wrong_session (s : UDSServer) (request : List Nat)
    (hs : s.currentSession ≠ DiagnosticSession.PROGRAMMING) (hlen : 4 ≤ request.length) :
    handleRoutineControlRequest s request = ([0x7F, 0x31, 0x22], s) := by
  unfold handleRoutineControlRequest
  rw [if_neg (by omega)]
  dsimp only
  rw [if_pos hs]

/-- C19: an ECUReset request `[0x11, sub, ...]` with `sub` in 0x01..0x05 is
answered `{0x51, sub}` and only sets the session to DEFAULT and the timeout to
5 s (through `handleRequest` the last-activity time is set as well); a
RequestDownload of at least eleven bytes or a RoutineControl of at least four
bytes sent next is answered with NRC 0x22.  Any other `sub` is answered
`{0x7F, 0x11, 0x12}` and the one-byte request `{0x7F, 0x11, 0x13}`, the handler
leaving the state unchanged. -/
theorem C19_ecu_reset (s : UDSServer) (sub : Nat) (rest : List Nat) :
    (1 ≤ sub → sub ≤ 5 →
      handleECUResetRequest s (0x11 :: sub :: rest) =
        ([0x51, sub],
          { s with currentSession := DiagnosticSession.DEFAULT, sessionTimeout := 5 }) ∧
      ∀ tCheck tUpdate : Int,
        handleRequest s tCheck tUpdate (0x11 :: sub :: rest) =
          ([0x51, sub],
            { s with
              currentSession := DiagnosticSession.DEFAULT
              sessionTimeout := 5
              lastActivityTime := tUpdate }) ∧
        ∀ (t3 t4 : Int) (tail : List Nat),
          (10 ≤ tail.length →
            (handleRequest (handleRequest s tCheck tUpdate (0x11 :: sub :: rest)).2 t3 t4
              (0x34 :: tail)).1 = [0x7F, 0x34, 0x22]) ∧
          (3 ≤ tail.length →
            (handleRequest (handleRequest s tCheck tUpdate (0x11 :: sub :: rest)).2 t3 t4
              (0x31 :: tail)).1 = [0x7F, 0x31, 0x22])) ∧
    ((sub = 0 ∨ 5 < sub) →
      handleECUResetRequest s (0x11 :: sub :: rest) = ([0x7F, 0x11, 0x12], s) ∧
      ∀ tCheck tUpdate : Int,
        handleRequest s tCheck tUpdate (0x11 :: sub :: rest) =
          ([0x7F, 0x11, 0x12], updateSessionTimeout (checkSessionTimeout s tCheck) tUpdate)) ∧
    handleECUResetRequest s [0x11] = ([0x7F, 0x11, 0x13], s) ∧
    (∀ tCheck tUpdate : Int,
      handleRequest s tCheck tUpdate [0x11] =
        ([0x7F, 0x11, 0x13], updateSessionTimeout (checkSessionTimeout s tCheck) tUpdate)) := by
  have hlen : ¬ (0x11 :: sub :: rest).length < 2 := by simp
  refine ⟨?_, ?_, rfl, fun _ _ => rfl⟩
  · intro h1 h5
    have key : ∀ u : UDSServer,
        handleECUResetRequest u (0x11 :: sub :: rest) =
          ([0x51, sub],
            { u with currentSession := DiagnosticSession.DEFAULT, sessionTimeout := 5 }) := by
      intro u
      unfold handleECUResetRequest
      rw [if_neg hlen]
      dsimp only
      rw [List.getD_cons_succ, List.getD_cons_zero]
      have hsub : sub = 1 ∨ sub = 2 ∨ sub = 3 ∨ sub = 4 ∨ sub = 5 := by omega
      rcases hsub with rfl | rfl | rfl | rfl | rfl <;> rfl
    refine ⟨key s, fun tCheck tUpdate => ?_⟩
    have hreq : handleRequest s tCheck tUpdate (0x11 :: sub :: rest) =
        ([0x51, sub],
          { s with
            currentSession := DiagnosticSession.DEFAULT
            sessionTimeout := 5
            lastActivityTime := tUpdate }) := by
      rw [handleRequest_0x11, updateSessionTimeout_checkSessionTimeout, key]
    refine ⟨hreq, fun t3 t4 tail => ?_⟩
    rw [hreq]
    dsimp only
    have hns : ∀ u : UDSServer, u.currentSession = DiagnosticSession.DEFAULT →
        (updateSessionTimeout (checkSessionTimeout u t3) t4).currentSession ≠
          DiagnosticSession.PROGRAMMING :=
      fun u hu => checkSessionTimeout_not_programming u t3 (by rw [hu]; decide)
    constructor
    · intro htail
      rw [handleRequest_0x34,
        handleRequestDownloadRequest_wrong_session _ _ (hns _ rfl) (by simp; omega)]
    · intro htail
      rw [handleRequest_0x31,
        handleRoutineControlRequest_wrong_session _ _ (hns _ rfl) (by simp; omega)]
  · intro hsub
    have key : ∀ u : UDSServer,
        handleECUResetRequest u (0x11 :: sub :: rest) = ([0x7F, 0x11, 0x12], u) := by
      intro u
      unfold handleECUResetRequest
      rw [if_neg hlen]
      dsimp only
      rw [List.getD_cons_succ, List.getD_cons_zero, if_neg (by omega), if_neg (by omega),
        if_neg (by omega), if_neg (by omega), if_neg (by omega)]
    refine ⟨key s, fun tCheck tUpdate => ?_⟩
    rw [handleRequest_0x11]
    exact key _

/-- C19 at a concrete input: a soft reset in the PROGRAMMING session while a
download is active. -/
theorem C19_ecu_reset_witness :
    handleECUResetRequest
        { UDSServer.init 0 ⟨0, 0⟩ with
          currentSession := DiagnosticSession.PROGRAMMING
          sessionTimeout := 10
          currentDownloadMemoryAddress := some ⟨0x1000, 4⟩
          downloadBuffer := [0xDE]
          currentBlockSequenceCounter := 1
          transferInProgress := true } [0x11, 0x03] =
      ([0x51, 0x03],
        { UDSServer.init 0 ⟨0, 0⟩ with
          currentDownloadMemoryAddress := some ⟨0x1000, 4⟩
          downloadBuffer := [0xDE]
          currentBlockSequenceCounter := 1
          transferInProgress := true }) :=
  ((C19_ecu_reset
    { UDSServer.init 0 ⟨0, 0⟩ with
      currentSession := DiagnosticSession.PROGRAMMING
      sessionTimeout := 10
      currentDownloadMemoryAddress := some ⟨0x1000, 4⟩
      downloadBuffer := [0xDE]
      currentBlockSequenceCounter := 1
      transferInProgress := true } 0x03 []).1 (by decide) (by decide)).1


/-! ### The session timeout -/

/-- No service handler writes the last-activity time. -/
theorem handler_lastActivityTime (S : Nat)
    (handler : UDSServer → List Nat → List Nat × UDSServer) (h : services S = some handler)
    (s : UDSServer) (request : List Nat) :
    (handler s request).2.lastActivityTime = s.lastActivityTime := by
  unfold services at h
  split_ifs at h
  all_goals
    try cases h
  · unfold handleDiagnosticSessionControlRequest
    dsimp only
    repeat' split
    all_goals rfl
  · unfold handleECUResetRequest
    dsimp only
    repeat' split
    all_goals rfl
  · unfold handleTesterPresentRequest
    repeat' split
    all_goals rfl
  · unfold handleRequestDownloadRequest
    repeat' split
    all_goals rfl
  · unfold handleTransferDataRequest
    dsimp only
    repeat' split
    all_goals rfl
  · unfold handleRequestTransferExitRequest
    repeat' split
    all_goals rfl
  · unfold handleRoutineControlRequest
    dsimp only
    repeat' split
    · rfl
    · rfl
    · unfold handleEraseRoutine
      repeat' split
      all_goals rfl
    · unfold handleCheckProgrammingPreConditionsRoutine
      dsimp only
      repeat' split
      all_goals rfl
    · unfold handleCheckProgrammingDependenciesRoutine
      dsimp only
      repeat' split
      all_goals rfl
    · unfold handleCheckMemoryRoutine
      dsimp only
      repeat' split
      all_goals rfl
    · rfl

/-- After `handleRequest` the last-activity time is the clock reading taken by
`updateSessionTimeout`. -/
theorem handleRequest_lastActivityTime (s : UDSServer) (tCheck tUpdate : Int)
    (request : List Nat) :
    (handleRequest s tCheck tUpdate request).2.lastActivityTime = tUpdate := by
  cases request with
  | nil => rfl
  | cons S rest =>
    cases hS : services S with
    | none =>
      rw [handleRequest_unknown _ _ _ _ _ hS]
      rfl
    | some handler =>
      have : handleRequest s tCheck tUpdate (S :: rest) =
          handler (updateSessionTimeout (checkSessionTimeout s tCheck) tUpdate) (S :: rest) := by
        simp only [handleRequest, hS]
      rw [this, handler_lastActivityTime S handler hS]
      rfl

/-- The elapsed time, truncated to whole seconds, exceeds a non-negative
timeout exactly when at least `timeout + 1` full seconds have elapsed. -/
theorem elapsed_gt_iff (d timeout : Int) (hto : 0 ≤ timeout) :
    Int.tdiv d steadyClockTicksPerSecond > timeout ↔
      (timeout + 1) * steadyClockTicksPerSecond ≤ d := by
  unfold steadyClockTicksPerSecond
  by_cases hd : 0 ≤ d
  · rw [Int.tdiv_eq_ediv hd (by decide)]
    constructor <;> intro h <;> omega
  · have hneg : Int.tdiv d 1000000000 ≤ 0 := by
      have h1 : 0 ≤ Int.tdiv (-d) 1000000000 := Int.tdiv_nonneg (by omega) (by decide)
      rw [Int.neg_tdiv] at h1
      omega
    constructor <;> intro h <;> omega

/-- C20, as the code has it: the elapsed time `tCheck - lastActivityTime` is
truncated to whole seconds before it is compared with the timeout.  If the
truncated value is strictly greater than the timeout the session is reverted
to DEFAULT with a 5 s timeout, otherwise the state is kept; for a non-negative
timeout the first case is the case that at least `timeout + 1` full seconds
have elapsed.  The service handler then runs on the state so obtained, and
after the call the last-activity time is the clock reading of
`updateSessionTimeout`. -/
theorem C20_session_timeout (s : UDSServer) (tCheck tUpdate : Int) (request : List Nat) :
    (Int.tdiv (tCheck - s.lastActivityTime) steadyClockTicksPerSecond > s.sessionTimeout →
      checkSessionTimeout s tCheck =
        { s with currentSession := DiagnosticSession.DEFAULT, sessionTimeout := 5 }) ∧
    (¬ Int.tdiv (tCheck - s.lastActivityTime) steadyClockTicksPerSecond > s.sessionTimeout →
      checkSessionTimeout s tCheck = s) ∧
    (0 ≤ s.sessionTimeout →
      (Int.tdiv (tCheck - s.lastActivityTime) steadyClockTicksPerSecond > s.sessionTimeout ↔
        (s.sessionTimeout + 1) * steadyClockTicksPerSecond ≤ tCheck - s.lastActivityTime)) ∧
    (∀ (S : Nat) (rest : List Nat) (handler : UDSServer → List Nat → List Nat × UDSServer),
      services S = some handler →
      handleRequest s tCheck tUpdate (S :: rest) =
        handler (updateSessionTimeout (checkSessionTimeout s tCheck) tUpdate) (S :: rest)) ∧
    (handleRequest s tCheck tUpdate request).2.lastActivityTime = tUpdate := by
  refine ⟨?_, checkSessionTimeout_of_not_elapsed s tCheck, elapsed_gt_iff _ _, ?_,
    handleRequest_lastActivityTime s tCheck tUpdate request⟩
  · intro h
    unfold checkSessionTimeout
    dsimp only
    rw [if_pos h]
  · intro S rest handler hS
    simp only [handleRequest, hS]

/-- C20 at a concrete input: in the PROGRAMMING session entered at time 0
(timeout 10 s), a request arriving after exactly 11 s finds the session
reverted, and one arriving after 10.5 s finds it kept. -/
theorem C20_session_timeout_witness :
    checkSessionTimeout (handleRequest (UDSServer.init 0 ⟨0, 0⟩) 0 0 [0x10, 0x02]).2
        11000000000 =
      { (handleRequest (UDSServer.init 0 ⟨0, 0⟩) 0 0 [0x10, 0x02]).2 with
        currentSession := DiagnosticSession.DEFAULT, sessionTimeout := 5 } ∧
    checkSessionTimeout (handleRequest (UDSServer.init 0 ⟨0, 0⟩) 0 0 [0x10, 0x02]).2
        10500000000 =
      (handleRequest (UDSServer.init 0 ⟨0, 0⟩) 0 0 [0x10, 0x02]).2 :=
  ⟨(C20_session_timeout (handleRequest (UDSServer.init 0 ⟨0, 0⟩) 0 0 [0x10, 0x02]).2
      11000000000 11000000000 [0x3E, 0x00]).1 (by decide),
    (C20_session_timeout (handleRequest (UDSServer.init 0 ⟨0, 0⟩) 0 0 [0x10, 0x02]).2
      10500000000 10500000000 [0x3E, 0x00]).2.1 (by decide)⟩

/-- C20 as stated fails: in the PROGRAMMING session entered at time 0 (timeout
10 s), at the clock reading 10.5 s the elapsed time is strictly greater than
the timeout, yet the timeout check leaves the session PROGRAMMING. -/
theorem C20_not_reverted_after_ten_and_a_half_seconds :
    ¬ ∀ (s : UDSServer) (tCheck : Int),
      tCheck - s.lastActivityTime > s.sessionTimeout * steadyClockTicksPerSecond →
      (checkSessionTimeout s tCheck).currentSession = DiagnosticSession.DEFAULT := by
  intro h
  exact absurd
    (h (handleRequest (UDSServer.init 0 ⟨0, 0⟩) 0 0 [0x10, 0x02]).2 10500000000 (by decide))
    (by decide)


/-! ### Service 0x31, RoutineControl: the error paths -/

/-- The erase routine answers a control type other than START, STOP and
REQUEST_RESULTS with NRC 0x31 and leaves the state unchanged. -/
theorem handleEraseRoutine_bad_control (s : UDSServer) (ct : Nat) (data : List Nat)
    (h1 : ct ≠ 0x01) (h2 : ct ≠ 0x02) (h3 : ct ≠ 0x03) :
    handleEraseRoutine s ct data = ([0x7F, 0x31, 0x31], s) := by
  unfold handleEraseRoutine
  simp only [RoutineControlType.START, RoutineControlType.STOP,
    RoutineControlType.REQUEST_RESULTS]
  rw [if_neg h1, if_neg h2, if_neg h3]

/-- The precondition-check routine answers a control type other than START,
STOP and REQUEST_RESULTS with NRC 0x31 and leaves the state unchanged. -/
theorem handleCheckProgrammingPreConditionsRoutine_bad_control (s : UDSServer) (ct : Nat)
    (data : List Nat) (h1 : ct ≠ 0x01) (h2 : ct ≠ 0x02) (h3 : ct ≠ 0x03) :
    handleCheckProgrammingPreConditionsRoutine s ct data = ([0x7F, 0x31, 0x31], s) := by
  unfold handleCheckProgrammingPreConditionsRoutine
  simp only [RoutineControlType.START, RoutineControlType.STOP,
    RoutineControlType.REQUEST_RESULTS]
  rw [if_neg h1, if_neg h2, if_neg h3]

/-- The dependency-check routine answers a control type other than START, STOP
and REQUEST_RESULTS with NRC 0x31 and leaves the state unchanged. -/
theorem handleCheckProgrammingDependenciesRoutine_bad_control (s : UDSServer) (ct : Nat)
    (data : List Nat) (h1 : ct ≠ 0x01) (h2 : ct ≠ 0x02) (h3 : ct ≠ 0x03) :
    handleCheckProgrammingDependenciesRoutine s ct data = ([0x7F, 0x31, 0x31], s) := by
  unfold handleCheckProgrammingDependenciesRoutine
  simp only [RoutineControlType.START, RoutineControlType.STOP,
    RoutineControlType.REQUEST_RESULTS]
  rw [if_neg h1, if_neg h2, if_neg h3]

/-- The memory-check routine answers a control type other than START, STOP and
REQUEST_RESULTS with NRC 0x31 and leaves the state unchanged. -/
theorem handleCheckMemoryRoutine_bad_control (s : UDSServer) (ct : Nat) (data : List Nat)
    (h1 : ct ≠ 0x01) (h2 : ct ≠ 0x02) (h3 : ct ≠ 0x03) :
    handleCheckMemoryRoutine s ct data = ([0x7F, 0x31, 0x31], s) := by
  unfold handleCheckMemoryRoutine
  simp only [RoutineControlType.START, RoutineControlType.STOP,
    RoutineControlType.REQUEST_RESULTS]
  rw [if_neg h1, if_neg h2, if_neg h3]

/-- RoutineControl in the PROGRAMMING session, for a request of at least four
bytes whose routine identifier bytes are `r2 r3`: the dispatch on the routine
identifier `r2 * 256 + r3`. -/
theorem handleRoutineControlRequest_programming (s : UDSServer) (sid ct r2 r3 : Nat)
    (data : List Nat) (hs : s.currentSession = DiagnosticSession.PROGRAMMING)
    (hr2 : r2 < 256) (hr3 : r3 < 256) :
    handleRoutineControlRequest s (sid :: ct :: r2 :: r3 :: data) =
      if r2 * 256 + r3 = 0xFF00 then handleEraseRoutine s ct data
      else if r2 * 256 + r3 = 0xFF01 then handleCheckProgrammingPreConditionsRoutine s ct data
      else if r2 * 256 + r3 = 0xFF02 then handleCheckProgrammingDependenciesRoutine s ct data
      else if r2 * 256 + r3 = 0xFF03 then handleCheckMemoryRoutine s ct data
      else ([0x7F, 0x31, 0x31], s) := by
  have hlen : ¬ (sid :: ct :: r2 :: r3 :: data).length < 4 := by simp
  unfold handleRoutineControlRequest
  rw [if_neg hlen]
  simp only [List.getD_cons_succ, List.getD_cons_zero, List.drop_succ_cons, List.drop_zero]
  rw [if_neg (not_not.mpr hs), DoIP.shiftOr16_bytes r2 r3 hr2 hr3]

/-- RoutineControl with fewer than four bytes: NRC 0x13 in any session, state
unchanged. -/
theorem handleRoutineControlRequest_short (s : UDSServer) (request : List Nat)
    (hlen : request.length < 4) :
    handleRoutineControlRequest s request = ([0x7F, 0x31, 0x13], s) := by
  unfold handleRoutineControlRequest
  rw [if_pos hlen]

/-- C21: for a RoutineControl request, fewer than four bytes are answered
`{0x7F, 0x31, 0x13}` in any session; with at least four bytes the answer is
`{0x7F, 0x31, 0x22}` when the session is not PROGRAMMING, and in the
PROGRAMMING session `{0x7F, 0x31, 0x31}` when the routine identifier
`r2 * 256 + r3` is not one of 0xFF00..0xFF03 or the control type is not 0x01,
0x02 or 0x03.  In all these cases the handler returns the state unchanged;
through `handleRequest` the same answers are given for the session that is
current after the timeout check, on top of the timeout bookkeeping. -/
theorem C21_routine_control_errors (s : UDSServer) (ct r2 r3 : Nat) (data short : List Nat)
    (hr2 : r2 < 256) (hr3 : r3 < 256) :
    (short.length < 4 → handleRoutineControlRequest s short = ([0x7F, 0x31, 0x13], s)) ∧
    (s.currentSession ≠ DiagnosticSession.PROGRAMMING →
      handleRoutineControlRequest s (0x31 :: ct :: r2 :: r3 :: data) = ([0x7F, 0x31, 0x22], s)) ∧
    (s.currentSession = DiagnosticSession.PROGRAMMING →
      (r2 * 256 + r3 < 0xFF00 ∨ 0xFF03 < r2 * 256 + r3) ∨ (ct ≠ 0x01 ∧ ct ≠ 0x02 ∧ ct ≠ 0x03) →
      handleRoutineControlRequest s (0x31 :: ct :: r2 :: r3 :: data) = ([0x7F, 0x31, 0x31], s)) ∧
    (∀ (tCheck tUpdate : Int) (tail : List Nat), tail.length < 3 →
      handleRequest s tCheck tUpdate (0x31 :: tail) =
        ([0x7F, 0x31, 0x13], updateSessionTimeout (checkSessionTimeout s tCheck) tUpdate)) ∧
    (∀ tCheck tUpdate : Int,
      (checkSessionTimeout s tCheck).currentSession ≠ DiagnosticSession.PROGRAMMING →
      handleRequest s tCheck tUpdate (0x31 :: ct :: r2 :: r3 :: data) =
        ([0x7F, 0x31, 0x22], updateSessionTimeout (checkSessionTimeout s tCheck) tUpdate)) ∧
    (∀ tCheck tUpdate : Int,
      (checkSessionTimeout s tCheck).currentSession = DiagnosticSession.PROGRAMMING →
      (r2 * 256 + r3 < 0xFF00 ∨ 0xFF03 < r2 * 256 + r3) ∨ (ct ≠ 0x01 ∧ ct ≠ 0x02 ∧ ct ≠ 0x03) →
      handleRequest s tCheck tUpdate (0x31 :: ct :: r2 :: r3 :: data) =
        ([0x7F, 0x31, 0x31], updateSessionTimeout (checkSessionTimeout s tCheck) tUpdate)) := by
  have key : ∀ u : UDSServer, u.currentSession = DiagnosticSession.PROGRAMMING →
      (r2 * 256 + r3 < 0xFF00 ∨ 0xFF03 < r2 * 256 + r3) ∨ (ct ≠ 0x01 ∧ ct ≠ 0x02 ∧ ct ≠ 0x03) →
      handleRoutineControlRequest u (0x31 :: ct :: r2 :: r3 :: data) = ([0x7F, 0x31, 0x31], u) := by
    intro u hu hbad
    rw [handleRoutineControlRequest_programming u 0x31 ct r2 r3 data hu hr2 hr3]
    rcases hbad with hid | ⟨h1, h2, h3⟩
    · rw [if_neg (by omega), if_neg (by omega), if_neg (by omega), if_neg (by omega)]
    · split_ifs
      · exact handleEraseRoutine_bad_control u ct data h1 h2 h3
      · exact handleCheckProgrammingPreConditionsRoutine_bad_control u ct data h1 h2 h3
      · exact handleCheckProgrammingDependenciesRoutine_bad_control u ct data h1 h2 h3
      · exact handleCheckMemoryRoutine_bad_control u ct data h1 h2 h3
      · rfl
  refine ⟨handleRoutineControlRequest_short s short, ?_, key s, ?_, ?_, ?_⟩
  · intro hs
    exact handleRoutineControlRequest_wrong_session s _ hs (by simp)
  · intro tCheck tUpdate tail htail
    rw [handleRequest_0x31]
    exact handleRoutineControlRequest_short _ _ (by simp; omega)
  · intro tCheck tUpdate hs
    rw [handleRequest_0x31]
    exact handleRoutineControlRequest_wrong_session _ _ hs (by simp)
  · intro tCheck tUpdate hs hbad
    rw [handleRequest_0x31]
    exact key _ hs hbad

/-- C21 at a concrete input: the spec scenario "routine out of session",
`31 01 FF 01` in the DEFAULT session. -/
theorem C21_routine_control_errors_witness :
    handleRoutineControlRequest (UDSServer.init 0 ⟨0, 0⟩) [0x31, 0x01, 0xFF, 0x01] =
      ([0x7F, 0x31, 0x22], UDSServer.init 0 ⟨0, 0⟩) :=
  (C21_routine_control_errors (UDSServer.init 0 ⟨0, 0⟩) 0x01 0xFF 0x01 [] [] (by decide)
    (by decide)).2.1 (by decide)


/-! ### Routine 0xFF00, erase -/

/-- C22: in the PROGRAMMING session the erase routine 0xFF00 is a two-state
machine on `eraseInProgress`.  START with at least eight data bytes answers
`{0x71, 0x01, 0xFF, 0x00}`, stores the big-endian address and size and sets
the flag; START with fewer than eight data bytes answers `{0x7F, 0x31, 0x13}`
and changes nothing.  STOP answers `{0x71, 0x02, 0xFF, 0x00}` and clears the
flag when it is set, and answers `{0x7F, 0x31, 0x22}` with the state unchanged
when it is not.  REQUEST_RESULTS leaves the state unchanged and answers
`{0x71, 0x03, 0xFF, 0x00, 0x01}` when the flag is set and
`{0x71, 0x03, 0xFF, 0x00, 0x00}` when it is not.  No other field changes. -/
theorem C22_erase_routine (s : UDSServer) (a0 a1 a2 a3 z0 z1 z2 z3 : Nat)
    (rest few data : List Nat)
    (hs : s.currentSession = DiagnosticSession.PROGRAMMING)
    (ha0 : a0 < 256) (ha1 : a1 < 256) (ha2 : a2 < 256) (ha3 : a3 < 256)
    (hz0 : z0 < 256) (hz1 : z1 < 256) (hz2 : z2 < 256) (hz3 : z3 < 256)
    (hfew : few.length < 8) :
    handleRoutineControlRequest s
        (0x31 :: 0x01 :: 0xFF :: 0x00 :: a0 :: a1 :: a2 :: a3 :: z0 :: z1 :: z2 :: z3 :: rest) =
      ([0x71, 0x01, 0xFF, 0x00],
        { s with
          eraseAddress :=
            { address := a0 * 2 ^ 24 + a1 * 2 ^ 16 + a2 * 2 ^ 8 + a3
              size := z0 * 2 ^ 24 + z1 * 2 ^ 16 + z2 * 2 ^ 8 + z3 }
          eraseInProgress := true }) ∧
    handleRoutineControlRequest s (0x31 :: 0x01 :: 0xFF :: 0x00 :: few) =
      ([0x7F, 0x31, 0x13], s) ∧
    (s.eraseInProgress = true →
      handleRoutineControlRequest s (0x31 :: 0x02 :: 0xFF :: 0x00 :: data) =
        ([0x71, 0x02, 0xFF, 0x00], { s with eraseInProgress := false })) ∧
    (s.eraseInProgress = false →
      handleRoutineControlRequest s (0x31 :: 0x02 :: 0xFF :: 0x00 :: data) =
        ([0x7F, 0x31, 0x22], s)) ∧
    (s.eraseInProgress = true →
      handleRoutineControlRequest s (0x31 :: 0x03 :: 0xFF :: 0x00 :: data) =
        ([0x71, 0x03, 0xFF, 0x00, 0x01], s)) ∧
    (s.eraseInProgress = false →
      handleRoutineControlRequest s (0x31 :: 0x03 :: 0xFF :: 0x00 :: data) =
        ([0x71, 0x03, 0xFF, 0x00, 0x00], s)) := by
  have hdisp : ∀ (ct : Nat) (d : List Nat),
      handleRoutineControlRequest s (0x31 :: ct :: 0xFF :: 0x00 :: d) =
        handleEraseRoutine s ct d := by
    intro ct d
    rw [handleRoutineControlRequest_programming s 0x31 ct 0xFF 0x00 d hs (by decide) (by decide),
      if_pos (by decide)]
  have hlen8 : ¬ (a0 :: a1 :: a2 :: a3 :: z0 :: z1 :: z2 :: z3 :: rest).length < 8 := by simp
  refine ⟨?_, ?_, ?_, ?_, ?_, ?_⟩
  · rw [hdisp]
    unfold handleEraseRoutine
    rw [if_pos (show (0x01 : Nat) = RoutineControlType.START from rfl), if_neg hlen8,
      parseMemoryAddress_bigEndian a0 a1 a2 a3 z0 z1 z2 z3 rest ha0 ha1 ha2 ha3 hz0 hz1 hz2 hz3]
  · rw [hdisp]
    unfold handleEraseRoutine
    rw [if_pos (show (0x01 : Nat) = RoutineControlType.START from rfl), if_pos hfew]
  · intro h
    rw [hdisp]
    unfold handleEraseRoutine
    rw [if_neg (show ¬ (0x02 : Nat) = RoutineControlType.START by decide),
      if_pos (show (0x02 : Nat) = RoutineControlType.STOP from rfl), if_neg (by simp [h])]
  · intro h
    rw [hdisp]
    unfold handleEraseRoutine
    rw [if_neg (show ¬ (0x02 : Nat) = RoutineControlType.START by decide),
      if_pos (show (0x02 : Nat) = RoutineControlType.STOP from rfl), if_pos (by simp [h])]
  · intro h
    rw [hdisp]
    unfold handleEraseRoutine
    rw [if_neg (show ¬ (0x03 : Nat) = RoutineControlType.START by decide),
      if_neg (show ¬ (0x03 : Nat) = RoutineControlType.STOP by decide),
      if_pos (show (0x03 : Nat) = RoutineControlType.REQUEST_RESULTS from rfl),
      if_neg (by simp [h])]
  · intro h
    rw [hdisp]
    unfold handleEraseRoutine
    rw [if_neg (show ¬ (0x03 : Nat) = RoutineControlType.START by decide),
      if_neg (show ¬ (0x03 : Nat) = RoutineControlType.STOP by decide),
      if_pos (show (0x03 : Nat) = RoutineControlType.REQUEST_RESULTS from rfl),
      if_pos (by simp [h])]

/-- C22 at a concrete input: erase START for address 0x00001000, size
0x00000100 in the PROGRAMMING session reached by `10 02`. -/
theorem C22_erase_routine_witness :
    handleRoutineControlRequest (handleRequest (UDSServer.init 0 ⟨0, 0⟩) 0 0 [0x10, 0x02]).2
        [0x31, 0x01, 0xFF, 0x00, 0x00, 0x00, 0x10, 0x00, 0x00, 0x00, 0x01, 0x00] =
      ([0x71, 0x01, 0xFF, 0x00],
        { (handleRequest (UDSServer.init 0 ⟨0, 0⟩) 0 0 [0x10, 0x02]).2 with
          eraseAddress := ⟨0x1000, 0x100⟩, eraseInProgress := true }) :=
  (C22_erase_routine (handleRequest (UDSServer.init 0 ⟨0, 0⟩) 0 0 [0x10, 0x02]).2
    0x00 0x00 0x10 0x00 0x00 0x00 0x01 0x00 [] [] []
    rfl (by decide) (by decide) (by decide) (by decide) (by decide) (by decide) (by decide)
    (by decide) (by decide)).1

/-! ### Routines 0xFF01 and 0xFF02, and the unsupported control types -/

/-- C23: in the PROGRAMMING session RoutineControl START of routine 0xFF01
answers `{0x71, 0x01, 0xFF, 0x01, 0x07}` and START of routine 0xFF02 answers
`{0x71, 0x01, 0xFF, 0x02, 0x07}`, for any trailing data; STOP and
REQUEST_RESULTS of the routines 0xFF01, 0xFF02 and 0xFF03 answer
`{0x7F, 0x31, 0x22}`; none of these requests changes the state. -/
theorem C23_check_routines (s : UDSServer) (ct r3 : Nat) (data : List Nat)
    (hs : s.currentSession = DiagnosticSession.PROGRAMMING) :
    handleRoutineControlRequest s (0x31 :: 0x01 :: 0xFF :: 0x01 :: data) =
      ([0x71, 0x01, 0xFF, 0x01, 0x07], s) ∧
    handleRoutineControlRequest s (0x31 :: 0x01 :: 0xFF :: 0x02 :: data) =
      ([0x71, 0x01, 0xFF, 0x02, 0x07], s) ∧
    ((ct = 0x02 ∨ ct = 0x03) → (r3 = 0x01 ∨ r3 = 0x02 ∨ r3 = 0x03) →
      handleRoutineControlRequest s (0x31 :: ct :: 0xFF :: r3 :: data) =
        ([0x7F, 0x31, 0x22], s)) := by
  refine ⟨?_, ?_, ?_⟩
  · rw [handleRoutineControlRequest_programming s 0x31 0x01 0xFF 0x01 data hs (by decide)
      (by decide), if_neg (by decide), if_pos (by decide)]
    unfold handleCheckProgrammingPreConditionsRoutine
    rw [if_pos (show (0x01 : Nat) = RoutineControlType.START from rfl)]
    simp [checkVoltage, checkTemperature, checkSecurityAccess]
  · rw [handleRoutineControlRequest_programming s 0x31 0x01 0xFF 0x02 data hs (by decide)
      (by decide), if_neg (by decide), if_neg (by decide), if_pos (by decide)]
    unfold handleCheckProgrammingDependenciesRoutine
    rw [if_pos (show (0x01 : Nat) = RoutineControlType.START from rfl)]
    simp [checkSoftwareVersionCompatibility, checkHardwareVersionCompatibility,
      checkMemoryAvailability]
  · intro hct hr3
    rcases hr3 with rfl | rfl | rfl
    · rw [handleRoutineControlRequest_programming s 0x31 ct 0xFF 0x01 data hs (by decide)
        (by decide), if_neg (by decide), if_pos (by decide)]
      rcases hct with rfl | rfl <;> rfl
    · rw [handleRoutineControlRequest_programming s 0x31 ct 0xFF 0x02 data hs (by decide)
        (by decide), if_neg (by decide), if_neg (by decide), if_pos (by decide)]
      rcases hct with rfl | rfl <;> rfl
    · rw [handleRoutineControlRequest_programming s 0x31 ct 0xFF 0x03 data hs (by decide)
        (by decide), if_neg (by decide), if_neg (by decide), if_neg (by decide),
        if_pos (by decide)]
      rcases hct with rfl | rfl <;> rfl

/-- C23 at a concrete input: `31 01 FF 01` in the PROGRAMMING session reached
by `10 02`. -/
theorem C23_check_routines_witness :
    handleRoutineControlRequest (handleRequest (UDSServer.init 0 ⟨0, 0⟩) 0 0 [0x10, 0x02]).2
        [0x31, 0x01, 0xFF, 0x01] =
      ([0x71, 0x01, 0xFF, 0x01, 0x07], (handleRequest (UDSServer.init 0 ⟨0, 0⟩) 0 0 [0x10, 0x02]).2) :=
  (C23_check_routines (handleRequest (UDSServer.init 0 ⟨0, 0⟩) 0 0 [0x10, 0x02]).2 0x02 0x01 []
    rfl).1


/-! ### Service 0x3E, TesterPresent -/

/-- C24: a TesterPresent request `[0x3E, sub, ...]` with `sub = 0x00` sets
tester-present to true and with `sub = 0x01` sets it to false, both answered
`{0x7E, 0x00}`; any other `sub` is answered `{0x7F, 0x3E, 0x31}` and the
one-byte request `{0x7F, 0x3E, 0x13}`, the handler leaving the state unchanged.
No other field changes (through `handleRequest`, apart from the timeout
bookkeeping), and `3E 00` sent twice gives the same response and the same
state as `3E 00` sent once. -/
theorem C24_tester_present (s : UDSServer) (sub : Nat) (rest : List Nat) :
    handleTesterPresentRequest s (0x3E :: 0x00 :: rest) =
      ([0x7E, 0x00], { s with testerPresent := true }) ∧
    handleTesterPresentRequest s (0x3E :: 0x01 :: rest) =
      ([0x7E, 0x00], { s with testerPresent := false }) ∧
    (sub ≠ 0x00 → sub ≠ 0x01 →
      handleTesterPresentRequest s (0x3E :: sub :: rest) = ([0x7F, 0x3E, 0x31], s)) ∧
    handleTesterPresentRequest s [0x3E] = ([0x7F, 0x3E, 0x13], s) ∧
    (∀ tCheck tUpdate : Int,
      handleRequest s tCheck tUpdate (0x3E :: 0x00 :: rest) =
        ([0x7E, 0x00],
          { updateSessionTimeout (checkSessionTimeout s tCheck) tUpdate with
            testerPresent := true }) ∧
      handleRequest s tCheck tUpdate (0x3E :: 0x01 :: rest) =
        ([0x7E, 0x00],
          { updateSessionTimeout (checkSessionTimeout s tCheck) tUpdate with
            testerPresent := false }) ∧
      (sub ≠ 0x00 → sub ≠ 0x01 →
        handleRequest s tCheck tUpdate (0x3E :: sub :: rest) =
          ([0x7F, 0x3E, 0x31], updateSessionTimeout (checkSessionTimeout s tCheck) tUpdate)) ∧
      handleRequest s tCheck tUpdate [0x3E] =
        ([0x7F, 0x3E, 0x13], updateSessionTimeout (checkSessionTimeout s tCheck) tUpdate)) ∧
    handleTesterPresentRequest (handleTesterPresentRequest s (0x3E :: 0x00 :: rest)).2
        (0x3E :: 0x00 :: rest) =
      handleTesterPresentRequest s (0x3E :: 0x00 :: rest) ∧
    (∀ t1 t2 t3 t4 : Int,
      (handleRequest (handleRequest s t1 t2 [0x3E, 0x00]).2 t3 t4 [0x3E, 0x00]).1 =
        (handleRequest s t1 t2 [0x3E, 0x00]).1 ∧
      (handleRequest s t1 t2 [0x3E, 0x00]).2.testerPresent = true ∧
      (handleRequest (handleRequest s t1 t2 [0x3E, 0x00]).2 t3 t4 [0x3E, 0x00]).2.testerPresent =
        true) := by
  have key : ∀ u : UDSServer, sub ≠ 0x00 → sub ≠ 0x01 →
      handleTesterPresentRequest u (0x3E :: sub :: rest) = ([0x7F, 0x3E, 0x31], u) := by
    intro u h0 h1
    have hlen : ¬ (0x3E :: sub :: rest).length < 2 := by simp
    unfold handleTesterPresentRequest
    rw [if_neg hlen, List.getD_cons_succ, List.getD_cons_zero, if_neg h0, if_neg h1]
  refine ⟨rfl, rfl, key s, rfl, fun tCheck tUpdate => ⟨rfl, rfl, ?_, rfl⟩, rfl,
    fun _ _ _ _ => ⟨rfl, rfl, rfl⟩⟩
  intro h0 h1
  rw [handleRequest_0x3E]
  exact key _ h0 h1

/-- C24 at a concrete input: `3E 07` in a state with tester-present set. -/
theorem C24_tester_present_witness :
    handleTesterPresentRequest { UDSServer.init 0 ⟨0, 0⟩ with testerPresent := true }
        [0x3E, 0x07] =
      ([0x7F, 0x3E, 0x31], { UDSServer.init 0 ⟨0, 0⟩ with testerPresent := true }) :=
  (C24_tester_present { UDSServer.init 0 ⟨0, 0⟩ with testerPresent := true } 0x07 []).2.2.1
    (by decide) (by decide)

/-! ### Empty requests and unknown services -/

/-- C25: `handleRequest` answers the empty request `{0x7F, 0x00, 0x11}` and a
request whose first byte `S` is none of 0x10, 0x11, 0x3E, 0x31, 0x34, 0x36,
0x37 `{0x7F, S, 0x11}`.  In both cases the new state differs from the old one
at most in the last-activity time and in session and timeout, which are those
left by the timeout check. -/
theorem C25_general_reject (s : UDSServer) (tCheck tUpdate : Int) (S : Nat) (rest : List Nat)
    (hS : S ≠ 0x10 ∧ S ≠ 0x11 ∧ S ≠ 0x3E ∧ S ≠ 0x31 ∧ S ≠ 0x34 ∧ S ≠ 0x36 ∧ S ≠ 0x37) :
    handleRequest s tCheck tUpdate [] =
      ([0x7F, 0x00, 0x11],
        { s with
          currentSession := (checkSessionTimeout s tCheck).currentSession
          sessionTimeout := (checkSessionTimeout s tCheck).sessionTimeout
          lastActivityTime := tUpdate }) ∧
    handleRequest s tCheck tUpdate (S :: rest) =
      ([0x7F, S, 0x11],
        { s with
          currentSession := (checkSessionTimeout s tCheck).currentSession
          sessionTimeout := (checkSessionTimeout s tCheck).sessionTimeout
          lastActivityTime := tUpdate }) ∧
    ((checkSessionTimeout s tCheck).currentSession = s.currentSession ∨
      (checkSessionTimeout s tCheck).currentSession = DiagnosticSession.DEFAULT) := by
  obtain ⟨h1, h2, h3, h4, h5, h6, h7⟩ := hS
  have hnone : services S = none := by
    unfold services
    rw [if_neg h1, if_neg h2, if_neg h3, if_neg h5, if_neg h6, if_neg h7, if_neg h4]
  refine ⟨?_, ?_, ?_⟩
  · rw [handleRequest_empty, updateSessionTimeout_checkSessionTimeout]
  · rw [handleRequest_unknown s tCheck tUpdate S rest hnone,
      updateSessionTimeout_checkSessionTimeout]
  · unfold checkSessionTimeout
    dsimp only
    split
    · exact Or.inr rfl
    · exact Or.inl rfl

/-- C25 at a concrete input: the request `22 F1 90` (ReadDataByIdentifier,
not registered) in the initial state. -/
theorem C25_general_reject_witness :
    handleRequest (UDSServer.init 0 ⟨0, 0⟩) 1000000000 1000000000 [0x22, 0xF1, 0x90] =
      ([0x7F, 0x22, 0x11], { UDSServer.init 0 ⟨0, 0⟩ with lastActivityTime := 1000000000 }) :=
  (C25_general_reject (UDSServer.init 0 ⟨0, 0⟩) 1000000000 1000000000 0x22 [0xF1, 0x90]
    (by decide)).2.1


/-! ### RequestTransferExit after the transfer -/

/-- TransferData through `handleRequest` leaves `transferInProgress` as it is. -/
theorem handleRequest_transferData_transferInProgress (s : UDSServer) (tCheck tUpdate : Int)
    (rest : List Nat) :
    (handleRequest s tCheck tUpdate (0x36 :: rest)).2.transferInProgress =
      s.transferInProgress := by
  rw [handleRequest_0x36, updateSessionTimeout_checkSessionTimeout,
    handleTransferDataRequest_frame]
  unfold handleTransferDataRequest
  dsimp only
  repeat' split
  all_goals rfl

/-- A sequence of TransferData requests leaves `transferInProgress` as it is. -/
theorem runRequests_transferData_transferInProgress (blocks : List (Int × Int × List Nat)) :
    ∀ s : UDSServer, (∀ b ∈ blocks, b.2.2.head? = some 0x36) →
      (runRequests s blocks).2.transferInProgress = s.transferInProgress := by
  induction blocks with
  | nil => intro s _; rfl
  | cons b blocks ih =>
    intro s hall
    obtain ⟨tCheck, tUpdate, request⟩ := b
    have hreq : request.head? = some 0x36 := hall _ (List.mem_cons_self _ _)
    have hrest : ∀ b ∈ blocks, b.2.2.head? = some 0x36 :=
      fun b hb => hall b (List.mem_cons_of_mem _ hb)
    cases request with
    | nil => simp at hreq
    | cons S rest =>
      simp only [List.head?_cons, Option.some.injEq] at hreq
      subst hreq
      simp only [runRequests]
      rw [ih _ hrest, handleRequest_transferData_transferInProgress]

/-- RequestTransferExit through `handleRequest`, while a transfer is in
progress, is answered `77`. -/
theorem handleRequest_transferExit_in_progress (s : UDSServer) (tCheck tUpdate : Int)
    (rest : List Nat) (h : s.transferInProgress = true) :
    (handleRequest s tCheck tUpdate (0x37 :: rest)).1 = [0x77] := by
  rw [handleRequest_0x37, updateSessionTimeout_checkSessionTimeout,
    handleRequestTransferExitRequest_frame]
  unfold handleRequestTransferExitRequest
  rw [if_neg (by simp [h])]

/-- C26: after a successful RequestDownload (response `74 04 00`) and any
sequence of TransferData requests, in particular one whose accepted blocks
complete the download, a RequestTransferExit sent next is answered `{0x77}`,
for any clock readings.  The spec scenario `10 02`, RequestDownload of 4 bytes
at 0x00001000, `36 01 DE AD`, `36 02 BE EF`, `37` produces the responses
`50 02 00 32 01 F4`, `74 04 00`, `76 01`, `76 02`, `77`; after its second
block the download is complete: the context is cleared and the buffer holds
`DE AD BE EF`. -/
theorem C26_transfer_exit_after_download (s : UDSServer) (t1 t2 t3 t4 : Int)
    (download rest : List Nat) (blocks : List (Int × Int × List Nat))
    (hok : (handleRequest s t1 t2 download).1 = [0x74, 0x04, 0x00])
    (hblocks : ∀ b ∈ blocks, b.2.2.head? = some 0x36) :
    (handleRequest (runRequests (handleRequest s t1 t2 download).2 blocks).2 t3 t4
      (0x37 :: rest)).1 = [0x77] ∧
    (runRequests (UDSServer.init 0 ⟨0, 0⟩)
        [(0, 0, [0x10, 0x02]),
          (0, 0, [0x34, 0x00, 0x44, 0x00, 0x00, 0x10, 0x00, 0x00, 0x00, 0x00, 0x04]),
          (0, 0, [0x36, 0x01, 0xDE, 0xAD]), (0, 0, [0x36, 0x02, 0xBE, 0xEF]),
          (0, 0, [0x37])]).1.map Prod.snd =
      [[0x50, 0x02, 0x00, 0x32, 0x01, 0xF4], [0x74, 0x04, 0x00], [0x76, 0x01], [0x76, 0x02],
        [0x77]] ∧
    (runRequests (UDSServer.init 0 ⟨0, 0⟩)
        [(0, 0, [0x10, 0x02]),
          (0, 0, [0x34, 0x00, 0x44, 0x00, 0x00, 0x10, 0x00, 0x00, 0x00, 0x00, 0x04]),
          (0, 0, [0x36, 0x01, 0xDE, 0xAD]),
          (0, 0, [0x36, 0x02, 0xBE, 0xEF])]).2.currentDownloadMemoryAddress = none ∧
    (runRequests (UDSServer.init 0 ⟨0, 0⟩)
        [(0, 0, [0x10, 0x02]),
          (0, 0, [0x34, 0x00, 0x44, 0x00, 0x00, 0x10, 0x00, 0x00, 0x00, 0x00, 0x04]),
          (0, 0, [0x36, 0x01, 0xDE, 0xAD]),
          (0, 0, [0x36, 0x02, 0xBE, 0xEF])]).2.downloadBuffer = [0xDE, 0xAD, 0xBE, 0xEF] := by
  refine ⟨?_, by decide, by decide, by decide⟩
  apply handleRequest_transferExit_in_progress
  rw [runRequests_transferData_transferInProgress blocks _ hblocks]
  exact (handleRequest_download_positive s t1 t2 download hok).2.2.1

/-- C26 at a concrete input: the download of the spec scenario, completed by
its two blocks, followed by `37`. -/
theorem C26_transfer_exit_after_download_witness :
    (handleRequest
      (runRequests
        (handleRequest (handleRequest (UDSServer.init 0 ⟨0, 0⟩) 0 0 [0x10, 0x02]).2 0 0
          [0x34, 0x00, 0x44, 0x00, 0x00, 0x10, 0x00, 0x00, 0x00, 0x00, 0x04]).2
        [(0, 0, [0x36, 0x01, 0xDE, 0xAD]), (0, 0, [0x36, 0x02, 0xBE, 0xEF])]).2 0 0
      [0x37]).1 = [0x77] :=
  (C26_transfer_exit_after_download (handleRequest (UDSServer.init 0 ⟨0, 0⟩) 0 0 [0x10, 0x02]).2
    0 0 0 0 [0x34, 0x00, 0x44, 0x00, 0x00, 0x10, 0x00, 0x00, 0x00, 0x00, 0x04] []
    [(0, 0, [0x36, 0x01, 0xDE, 0xAD]), (0, 0, [0x36, 0x02, 0xBE, 0xEF])]
    (by decide) (by decide)).1

/-! ### The download invariant of the reachable states -/

/-- C27: in every dispatcher state reachable from the initial state by
`handleRequest` calls, a present download context implies that
`transferInProgress` is true and that the download buffer is no longer than
the declared size; and `transferInProgress` false implies that the context is
absent, the block-sequence counter is 0 and the download buffer is empty. -/
theorem C27_download_invariant (s : UDSServer) (h : Reachable s) :
    (∀ m, s.currentDownloadMemoryAddress = some m →
      s.transferInProgress = true ∧ s.downloadBuffer.length ≤ m.size) ∧
    (s.transferInProgress = false →
      s.currentDownloadMemoryAddress = none ∧ s.currentBlockSequenceCounter = 0 ∧
        s.downloadBuffer = []) :=
  reachable_downloadInv s h

/-- C27 at a concrete reachable state: after `10 02`, a RequestDownload of four
bytes and the block `36 01 DE AD` the context is present, the transfer is in
progress and the buffer holds two bytes. -/
theorem C27_download_invariant_witness :
    (handleRequest
      (handleRequest (handleRequest (UDSServer.init 0 ⟨0, 0⟩) 0 0 [0x10, 0x02]).2 0 0
        [0x34, 0x00, 0x44, 0x00, 0x00, 0x10, 0x00, 0x00, 0x00, 0x00, 0x04]).2 0 0
      [0x36, 0x01, 0xDE, 0xAD]).2.transferInProgress = true ∧
    (handleRequest
      (handleRequest (handleRequest (UDSServer.init 0 ⟨0, 0⟩) 0 0 [0x10, 0x02]).2 0 0
        [0x34, 0x00, 0x44, 0x00, 0x00, 0x10, 0x00, 0x00, 0x00, 0x00, 0x04]).2 0 0
      [0x36, 0x01, 0xDE, 0xAD]).2.downloadBuffer.length ≤ 4 :=
  (C27_download_invariant _
    (Reachable.step _ 0 0 _ (Reachable.step _ 0 0 _ (Reachable.step _ 0 0 _
      (Reachable.init 0 ⟨0, 0⟩))))).1 ⟨0x1000, 4⟩ (by decide)

end UDS

namespace DoIP

open UDS

/-! ### The protocol-version bytes -/

/-- The diagnostic-message branch does not read the first two bytes of the
memory block. -/
theorem processDiagnosticMessage_version_bytes (srv : DoIPServer) (tCheck tUpdate : Int)
    (v0 v1 w0 w1 : Nat) (rest : List Nat) (payloadType payloadLength : Nat) :
    processDiagnosticMessage srv tCheck tUpdate (v0 :: v1 :: rest) payloadType payloadLength =
      processDiagnosticMessage srv tCheck tUpdate (w0 :: w1 :: rest) payloadType
        payloadLength := by
  unfold processDiagnosticMessage readRange
  simp only [List.getElem?_cons_succ, List.length_cons, List.drop_succ_cons]

/-- C28: `processDoIPMessage` does not validate the protocol-version bytes.
For every connection state, all clock readings and every received length, two
memory blocks that differ only in the bytes 0 and 1 give the same result: the
same frames sent and the same resulting routing flag and UDS dispatcher state
(or, for both, a read outside the block).  This covers two frames of equal
length of at least eight bytes that differ only in version and inverse
version. -/
theorem C28_version_bytes_ignored (srv : DoIPServer) (tCheck tUpdate : Int)
    (v0 v1 w0 w1 : Nat) (rest : List Nat) (length : Nat) :
    processDoIPMessage srv tCheck tUpdate (v0 :: v1 :: rest) length =
      processDoIPMessage srv tCheck tUpdate (w0 :: w1 :: rest) length := by
  unfold processDoIPMessage
  split
  · rfl
  · simp only [List.getElem?_cons_zero, List.getElem?_cons_succ, Option.bind_eq_bind,
      Option.some_bind, List.drop_succ_cons,
      processDiagnosticMessage_version_bytes srv tCheck tUpdate v0 v1 w0 w1 rest]

/-- C28 at a concrete input: the routing activation request of the spec
scenario with the version bytes `02 FD` and with the version bytes `AA BB`. -/
theorem C28_version_bytes_ignored_witness :
    processDoIPMessage (DoIPServer.init 0 ⟨0, 0⟩) 0 0
        [0xAA, 0xBB, 0x00, 0x05, 0x00, 0x00, 0x00, 0x07, 0x0E, 0x00, 0x00, 0x00, 0x00, 0x00,
          0x00] 15 =
      some
        ([[0x02, 0xFD, 0x00, 0x06, 0x00, 0x00, 0x00, 0x09, 0x0E, 0x00,
            0x00, 0x00, 0x10, 0x00, 0x00, 0x00, 0x00]],
          { DoIPServer.init 0 ⟨0, 0⟩ with routingActivated := true }) :=
  (C28_version_bytes_ignored (DoIPServer.init 0 ⟨0, 0⟩) 0 0 0xAA 0xBB 0x02 0xFD
    [0x00, 0x05, 0x00, 0x00, 0x00, 0x07, 0x0E, 0x00, 0x00, 0x00, 0x00, 0x00, 0x00] 15).trans
    (by decide)

end DoIP
